import Mathlib

/-!
# EmulatedCameraFactory: camera registry and hotplug state machine

A shallow embedding of `v3/EmulatedCameraFactory.cpp`.

* The slot table `EmulatedBaseCamera* mEmulatedCameras[MAX_CAMERA_NUM]` is a list of
  optional handles; `none` is the NULL pointer.  The header that defines `MAX_CAMERA_NUM`
  is not among the sources, so the capacity is left open: it is the length of the table.
* Everything the factory does to the outside world (allocation, destruction, sleeping,
  probing a device node, calling into a handle, calling the framework callback) is recorded
  as a list of `Effect`s, in program order.
* What the outside world answers (the result of `access`, of `Initialize`) is an
  explicit environment argument.
* `int` values are `Int`; the occupied count stays within the table capacity on every
  state considered here, so 32-bit wrap-around is never reached.
* A `delete` does not change the handle record.  Where the code keeps the pointer of a
  deleted handle in its slot (the constructor, after a failed `Initialize()`), later reads
  through the slot see the record as it was.
-/

namespace android

/-! ## Constants of the platform headers -/

/-- Value of `EINVAL` in errno.h. -/
def EINVAL : Int := 22

/-- Value of `ENODEV` in errno.h. -/
def ENODEV : Int := 19

/-- Value of `NO_ERROR` (and `OK`) in utils/Errors.h. -/
def NO_ERROR : Int := 0

/-- Value of `CAMERA_DEVICE_STATUS_NOT_PRESENT` in hardware/camera_common.h. -/
def CAMERA_DEVICE_STATUS_NOT_PRESENT : Int := 0

/-- Value of `CAMERA_DEVICE_STATUS_PRESENT` in hardware/camera_common.h. -/
def CAMERA_DEVICE_STATUS_PRESENT : Int := 1

/-! ## The device handle -/

/-- Modelled from the spec: the camera status values of the device handle (its header is
not among the sources); the factory uses exactly these two. `CAMERA_INIT` covers the
spec's Initializing and Ready, `CAMERA_READY_REMOVE` is PendingRemoval. -/
inductive CameraStatus where
  | CAMERA_INIT
  | CAMERA_READY_REMOVE
  deriving DecidableEq, Repr

open CameraStatus

/-- Modelled from the spec: the device handle `EmulatedBaseCamera` (declared outside the
sources) reduced to what the factory reads and writes: the camera status, the last
reported hotplug status and the camera id.  `uid` is a ghost allocation stamp that tells
two allocations apart. -/
structure EmulatedBaseCamera where
  uid : Nat
  mCameraID : Int
  mCameraStatus : CameraStatus
  mHotplugStatus : Int
  deriving DecidableEq, Repr

namespace EmulatedBaseCamera

/-- Modelled from the spec: `getCameraStatus()` of the handle contract (get-status). -/
def getCameraStatus (c : EmulatedBaseCamera) : CameraStatus := c.mCameraStatus

/-- Modelled from the spec: `setCameraStatus(s)` of the handle contract (set-status). -/
def setCameraStatus (c : EmulatedBaseCamera) (s : CameraStatus) : EmulatedBaseCamera :=
  { c with mCameraStatus := s }

/-- Modelled from the spec: `getHotplugStatus()`, the last externally reported presence
state of the handle. -/
def getHotplugStatus (c : EmulatedBaseCamera) : Int := c.mHotplugStatus

/-- Modelled from the spec: `plugCamera()`, the plug hook; it sets the handle's hotplug
status to Present. -/
def plugCamera (c : EmulatedBaseCamera) : EmulatedBaseCamera :=
  { c with mHotplugStatus := CAMERA_DEVICE_STATUS_PRESENT }

end EmulatedBaseCamera

/-- Modelled from the spec: `new EmulatedFakeCamera3(cameraId, module)`; a constructed
handle starts in the Initializing state (`CAMERA_INIT`).  The hotplug status a new handle
reports before any plug hook ran is not fixed by the spec and is an argument. -/
def newEmulatedFakeCamera3 (uid : Nat) (cameraId : Int) (hotplug0 : Int) :
    EmulatedBaseCamera :=
  { uid := uid, mCameraID := cameraId, mCameraStatus := CAMERA_INIT,
    mHotplugStatus := hotplug0 }

/-! ## The factory -/

/-- The callback table `camera_module_callbacks_t`: the only member used is the function
pointer `camera_device_status_change`, which may be NULL. -/
structure camera_module_callbacks_t where
  camera_device_status_change : Bool
  deriving DecidableEq, Repr

/-- The members of `EmulatedCameraFactory` that its methods read or write.
`mCallbacks = none` is the NULL pointer; `mHotplugThread` says whether the thread pointer
is non-NULL; `nextUid` is the ghost allocation counter behind `uid`. -/
structure EmulatedCameraFactory where
  mEmulatedCameras : List (Option EmulatedBaseCamera)
  mEmulatedCameraNum : Int
  mConstructedOK : Bool
  mCallbacks : Option camera_module_callbacks_t
  mHotplugThread : Bool
  nextUid : Nat
  deriving DecidableEq, Repr

/-- The effects of the factory on its environment. -/
inductive Effect where
  /-- Effect of `new EmulatedFakeCamera3(cameraId, ...)`. -/
  | newCamera (cam : EmulatedBaseCamera)
  /-- Effect of `delete mEmulatedCameras[i]`. -/
  | deleteSlot (i : Nat) (cam : EmulatedBaseCamera)
  /-- Effect of `delete cam` on the local, not yet stored, handle. -/
  | deleteCam (cam : EmulatedBaseCamera)
  /-- Effect of `usleep(us)`. -/
  | usleep (us : Nat)
  /-- Effect of `access("/dev/video<cameraId>", ...)` and whether it returned 0. -/
  | access (cameraId : Int) (ok : Bool)
  /-- Effect of `cam->Initialize()` and its result. -/
  | initCamera (cam : EmulatedBaseCamera) (res : Int)
  /-- Effect of `cam->plugCamera()`. -/
  | plugCamera (cam : EmulatedBaseCamera)
  /-- Effect of `cb->camera_device_status_change(cb, cameraId, newStatus)`, with the
  factory as it is at the moment of the call. -/
  | camera_device_status_change (cameraId newStatus : Int) (now : EmulatedCameraFactory)
  /-- Effect of creating and starting the hotplug thread over `n` camera ids. -/
  | hotplugThreadRun (n : Int)
  /-- Effect of `mHotplugThread->requestExit()`. -/
  | requestExit
  /-- Effect of `mHotplugThread->join()`. -/
  | join
  deriving DecidableEq, Repr

namespace EmulatedCameraFactory

/-- The capacity `MAX_CAMERA_NUM` of the slot table. -/
def MAX_CAMERA_NUM (f : EmulatedCameraFactory) : Nat := f.mEmulatedCameras.length

/-- Accessor `isConstructedOK()`. -/
def isConstructedOK (f : EmulatedCameraFactory) : Bool := f.mConstructedOK

/-- Accessor `getEmulatedCameraNum()`. -/
def getEmulatedCameraNum (f : EmulatedCameraFactory) : Int := f.mEmulatedCameraNum

end EmulatedCameraFactory

/-- What a dispatch handler does: it returns a code itself, or it dispatches to the
handle in the slot.  Dispatching through a NULL slot, or reading a slot past the end of
the table, is recorded as such. -/
inductive CallResult where
  | ret (code : Int)
  | connectCamera (cam : EmulatedBaseCamera)
  | getCameraInfo (cam : EmulatedBaseCamera)
  | nullDeref
  | outOfBounds
  deriving DecidableEq, Repr

namespace EmulatedCameraFactory

/-- Method `EmulatedCameraFactory::cameraDeviceOpen` (`*device = NULL` is not modelled). -/
def cameraDeviceOpen (f : EmulatedCameraFactory) (camera_id : Int) : CallResult :=
  if !f.isConstructedOK then CallResult.ret (-EINVAL)
  else if camera_id < 0 ∨ camera_id ≥ f.getEmulatedCameraNum then CallResult.ret (-ENODEV)
  else
    match f.mEmulatedCameras.get? camera_id.toNat with
    | none => CallResult.outOfBounds
    | some none => CallResult.nullDeref
    | some (some cam) => CallResult.connectCamera cam

/-- Method `EmulatedCameraFactory::getCameraInfo`. -/
def getCameraInfo (f : EmulatedCameraFactory) (camera_id : Int) : CallResult :=
  if !f.isConstructedOK then CallResult.ret (-EINVAL)
  else if camera_id < 0 ∨ camera_id ≥ f.getEmulatedCameraNum then CallResult.ret (-ENODEV)
  else
    match f.mEmulatedCameras.get? camera_id.toNat with
    | none => CallResult.outOfBounds
    | some none => CallResult.nullDeref
    | some (some cam) => CallResult.getCameraInfo cam

/-- Method `EmulatedCameraFactory::setCallbacks`; the returned code is `OK`. -/
def setCallbacks (f : EmulatedCameraFactory) (callbacks : Option camera_module_callbacks_t) :
    EmulatedCameraFactory × Int :=
  ({ f with mCallbacks := callbacks }, NO_ERROR)

end EmulatedCameraFactory

/-! ## Construction -/

/-- The table `SENSOR_PATH` of candidate device nodes. -/
def SENSOR_PATH : List String :=
  ["/dev/video0", "/dev/video1", "/dev/video2", "/dev/video3", "/dev/video4", "/dev/video5"]

/-- Loop of `getCameraNum` over the remaining paths, `iCamerasNum` being the running
count. -/
def getCameraNumLoop (access : String → Bool) : List String → Int → Int
  | [], iCamerasNum => iCamerasNum
  | p :: rest, iCamerasNum =>
      if access p then getCameraNumLoop access rest (iCamerasNum + 1)
      else getCameraNumLoop access rest iCamerasNum

/-- Function `getCameraNum`: the number of paths of `SENSOR_PATH` that `access` accepts. -/
def getCameraNum (access : String → Bool) : Int :=
  getCameraNumLoop access SENSOR_PATH 0

/-- What the environment answers during construction: `access` per device node, and per
scanned slot the result of `Initialize()` and the hotplug status of the new handle. -/
structure ScanEnv where
  access : String → Bool
  initRes : Nat → Int
  hotplug0 : Nat → Int

/-- The constructor's loop `for (i = 0; i < mEmulatedCameraNum; i++)`, with `k` rounds left
from index `i`.  A handle whose `Initialize()` fails is deleted, and the slot keeps the
pointer. -/
def ctorLoop (env : ScanEnv) :
    Nat → Nat → List (Option EmulatedBaseCamera) →
      List (Option EmulatedBaseCamera) × List Effect
  | 0, _, slots => (slots, [])
  | k + 1, i, slots =>
      let cam := newEmulatedFakeCamera3 i (i : Int) (env.hotplug0 i)
      let slots1 := slots.set i (some cam)
      let res := env.initRes i
      let r := ctorLoop env k (i + 1) slots1
      if res ≠ NO_ERROR then
        (r.1, Effect.newCamera cam :: Effect.initCamera cam res :: Effect.deleteSlot i cam :: r.2)
      else
        (r.1, Effect.newCamera cam :: Effect.initCamera cam res :: r.2)

/-- The constructor `EmulatedCameraFactory::EmulatedCameraFactory()` for a table of
`cap = MAX_CAMERA_NUM` slots.  It is undefined (`none`) when the scan counts more cameras
than the table has slots, since the loop would then store past the end of the table. -/
def EmulatedCameraFactory.ctor (cap : Nat) (env : ScanEnv) :
    Option (EmulatedCameraFactory × List Effect) :=
  let slots0 : List (Option EmulatedBaseCamera) := List.replicate cap none
  let num := getCameraNum env.access
  if (cap : Int) < num then none
  else
    let r := ctorLoop env num.toNat 0 slots0
    some ({ mEmulatedCameras := r.1, mEmulatedCameraNum := num, mConstructedOK := true,
            mCallbacks := none, mHotplugThread := true, nextUid := num.toNat },
          r.2 ++ [Effect.hotplugThreadRun num])

/-! ## Destruction -/

/-- The destructor's loop `for (n = 0; n < mEmulatedCameraNum; n++)`, with `k` rounds left
from index `n`: every non-NULL slot it visits is deleted.  It is undefined (`none`) when
it reads a slot past the end of the table. -/
def dtorLoop (slots : List (Option EmulatedBaseCamera)) : Nat → Nat → Option (List Effect)
  | 0, _ => some []
  | k + 1, n =>
      match slots.get? n with
      | none => none
      | some none => dtorLoop slots k (n + 1)
      | some (some cam) => (dtorLoop slots k (n + 1)).map (fun es => Effect.deleteSlot n cam :: es)

/-- The destructor `EmulatedCameraFactory::~EmulatedCameraFactory()`: its effects, in
order. -/
def EmulatedCameraFactory.dtor (f : EmulatedCameraFactory) : Option (List Effect) :=
  match dtorLoop f.mEmulatedCameras f.mEmulatedCameraNum.toNat 0 with
  | none => none
  | some es =>
      if f.mHotplugThread then some (es ++ [Effect.requestExit, Effect.join])
      else some es

/-! ## The dispatch entry -/

/-- The digit loop of `atoi`: `acc` is the value read so far. -/
def atoiDigits : Int → List Char → Int
  | acc, [] => acc
  | acc, c :: rest =>
      if 48 ≤ c.toNat ∧ c.toNat ≤ 57 then atoiDigits (acc * 10 + ((c.toNat : Int) - 48)) rest
      else acc

/-- The white-space skipping of `atoi` (`isspace`: space, and `\t` to `\r`). -/
def atoiSkipSpace : List Char → List Char
  | [] => []
  | c :: rest =>
      if c.toNat = 32 ∨ (9 ≤ c.toNat ∧ c.toNat ≤ 13) then atoiSkipSpace rest else c :: rest

/-- The value `atoi` reads from the characters of a name: white space, an optional sign,
then decimal digits; `0` when there is no digit. -/
def atoiValue (cs : List Char) : Int :=
  match atoiSkipSpace cs with
  | '-' :: rest => - atoiDigits 0 rest
  | '+' :: rest => atoiDigits 0 rest
  | rest => atoiDigits 0 rest

/-- The value of `strtol(name, NULL, 10)` for a 64-bit `long`: the value read, held
within `LONG_MIN .. LONG_MAX`. -/
def strtolValue (cs : List Char) : Int :=
  if atoiValue cs < -9223372036854775808 then -9223372036854775808
  else if 9223372036854775807 < atoiValue cs then 9223372036854775807
  else atoiValue cs

/-- The conversion `(int)` of a `long`: its low 32 bits, read as a signed number. -/
def longToInt (v : Int) : Int :=
  (v + 2147483648) % 4294967296 - 2147483648

/-- The C library function `atoi` on a name, as Android's C library defines it:
`(int)strtol(name, NULL, 10)`. -/
def atoi (name : String) : Int :=
  longToInt (strtolValue name.data)

/-- Method `EmulatedCameraFactory::device_open` on the global factory `f`.  `moduleOK`
says whether `module` is `&HAL_MODULE_INFO_SYM.common`; `name = none` is the NULL
pointer. -/
def EmulatedCameraFactory.device_open (f : EmulatedCameraFactory) (moduleOK : Bool)
    (name : Option String) : CallResult :=
  if !moduleOK then CallResult.ret (-EINVAL)
  else
    match name with
    | none => CallResult.ret (-EINVAL)
    | some n => f.cameraDeviceOpen (atoi n)

/-! ## Hotplug events -/

/-- What the environment answers during one `onStatusChanged` call: the result of the
`k`-th `access` probe of the device node, the result of `Initialize()`, and the hotplug
status a newly constructed handle reports. -/
structure HotplugEnv where
  access : Nat → Bool
  initRes : Int
  hotplug0 : Int

/-- The reclamation loop of `onStatusChanged` from index `i` on: every handle marked
`CAMERA_READY_REMOVE` is set to `CAMERA_INIT`, deleted, and its slot set to NULL. -/
def releaseLoop :
    Nat → List (Option EmulatedBaseCamera) → List (Option EmulatedBaseCamera) × List Effect
  | _, [] => ([], [])
  | i, none :: rest =>
      let r := releaseLoop (i + 1) rest
      (none :: r.1, r.2)
  | i, some c :: rest =>
      let r := releaseLoop (i + 1) rest
      if c.getCameraStatus = CAMERA_READY_REMOVE then
        (none :: r.1, Effect.deleteSlot i (c.setCameraStatus CAMERA_INIT) :: r.2)
      else
        (some c :: r.1, r.2)

/-- The wait loop `while (i < 4)` of the attach path, with `k = 4 - i` rounds left: probe
the device node, leave on success, otherwise sleep 200 ms and count. -/
def waitLoop (access : Nat → Bool) (cameraId : Int) : Nat → Nat → List Effect
  | 0, _ => []
  | k + 1, i =>
      if access i then [Effect.access cameraId true]
      else Effect.access cameraId false :: Effect.usleep 200000 ::
        waitLoop access cameraId k (i + 1)

/-- Method `EmulatedCameraFactory::onStatusChanged`.  It is undefined (`none`) for a
`cameraId` outside the table, which the code would index with. -/
def EmulatedCameraFactory.onStatusChanged (f : EmulatedCameraFactory)
    (cameraId newStatus : Int) (env : HotplugEnv) :
    Option (EmulatedCameraFactory × List Effect) :=
  if cameraId < 0 ∨ (f.MAX_CAMERA_NUM : Int) ≤ cameraId then none
  else
    let cb := f.mCallbacks
    let r := releaseLoop 0 f.mEmulatedCameras
    let f1 := { f with mEmulatedCameras := r.1 }
    match f1.mEmulatedCameras.getD cameraId.toNat none with
    | none =>
        let cam := (newEmulatedFakeCamera3 f1.nextUid cameraId env.hotplug0).setCameraStatus
          CAMERA_INIT
        let f2 := { f1 with nextUid := f1.nextUid + 1 }
        let es := r.2 ++ [Effect.newCamera cam, Effect.usleep 200000] ++
          waitLoop env.access cameraId 4 0 ++ [Effect.initCamera cam env.initRes]
        if env.initRes ≠ NO_ERROR then
          some (f2, es ++ [Effect.deleteCam cam])
        else
          let cam1 := cam.plugCamera
          let f3 := { f2 with
            mEmulatedCameras := f2.mEmulatedCameras.set cameraId.toNat (some cam1),
            mEmulatedCameraNum := f2.mEmulatedCameraNum + 1 }
          let notified :=
            match cb with
            | some c => c.camera_device_status_change
            | none => false
          if notified then
            some (f3, es ++ [Effect.plugCamera cam,
              Effect.camera_device_status_change cameraId newStatus f3])
          else
            some (f3, es ++ [Effect.plugCamera cam])
    | some cam =>
        if newStatus = cam.getHotplugStatus then some (f1, r.2)
        else if newStatus = CAMERA_DEVICE_STATUS_NOT_PRESENT then
          some ({ f1 with
            mEmulatedCameras :=
              f1.mEmulatedCameras.set cameraId.toNat
                (some (cam.setCameraStatus CAMERA_READY_REMOVE)),
            mEmulatedCameraNum := f1.mEmulatedCameraNum - 1 }, r.2)
        else if newStatus = CAMERA_DEVICE_STATUS_PRESENT then
          some ({ f1 with
            mEmulatedCameras := f1.mEmulatedCameras.set cameraId.toNat (some cam.plugCamera) },
            r.2 ++ [Effect.plugCamera cam])
        else some (f1, r.2)

/-- One hotplug event as delivered to `onStatusChanged`, with what the environment
answers during that call. -/
structure HotplugEvent where
  cameraId : Int
  newStatus : Int
  env : HotplugEnv

/-- A sequence of `onStatusChanged` calls, one per event, in order; the effects of the
calls are concatenated. -/
def runEvents :
    EmulatedCameraFactory → List HotplugEvent → Option (EmulatedCameraFactory × List Effect)
  | f, [] => some (f, [])
  | f, e :: rest =>
      match f.onStatusChanged e.cameraId e.newStatus e.env with
      | none => none
      | some r1 =>
          match runEvents r1.1 rest with
          | none => none
          | some r2 => some (r2.1, r1.2 ++ r2.2)

/-! ## Vocabulary of the properties -/

/-- A slot is occupied when it holds a handle that is not marked `CAMERA_READY_REMOVE`;
otherwise it is Absent. -/
def slotOccupied : Option EmulatedBaseCamera → Bool
  | none => false
  | some c => decide (c.getCameraStatus ≠ CAMERA_READY_REMOVE)

/-- The number of occupied slots of a table. -/
def occupiedCount (slots : List (Option EmulatedBaseCamera)) : Nat :=
  slots.countP slotOccupied

/-- What the reclamation loop leaves in one slot. -/
def releaseSlot : Option EmulatedBaseCamera → Option EmulatedBaseCamera
  | none => none
  | some c => if c.getCameraStatus = CAMERA_READY_REMOVE then none else some c

/-- Whether an effect is a call of the notification callback. -/
def Effect.isStatusChange : Effect → Bool
  | Effect.camera_device_status_change _ _ _ => true
  | _ => false

/-- Whether an effect is a `usleep`. -/
def Effect.isSleep : Effect → Bool
  | Effect.usleep _ => true
  | _ => false

/-- Whether an effect is an `access` probe that failed. -/
def Effect.isFailedProbe : Effect → Bool
  | Effect.access _ false => true
  | _ => false

/-- Whether an effect is a call of `Initialize()`. -/
def Effect.isInit : Effect → Bool
  | Effect.initCamera _ _ => true
  | _ => false

/-- The facts about a factory that every operation keeps: it constructed OK, the table
has `cap` slots, and the occupied count is the number of occupied slots. -/
def FactoryInv (cap : Nat) (f : EmulatedCameraFactory) : Prop :=
  f.mConstructedOK = true ∧ f.MAX_CAMERA_NUM = cap ∧
    f.mEmulatedCameraNum = occupiedCount f.mEmulatedCameras

/-- The factories reachable with a table of `cap` slots: the result of the constructor,
and from there any `setCallbacks` and any `onStatusChanged` with an id inside the
table. -/
inductive Reachable (cap : Nat) : EmulatedCameraFactory → Prop where
  | ctor (env : ScanEnv) (f : EmulatedCameraFactory)
      (h : (EmulatedCameraFactory.ctor cap env).map Prod.fst = some f) : Reachable cap f
  | setCallbacks (f : EmulatedCameraFactory) (callbacks : Option camera_module_callbacks_t)
      (hf : Reachable cap f) : Reachable cap (f.setCallbacks callbacks).1
  | onStatusChanged (f f' : EmulatedCameraFactory) (cameraId newStatus : Int)
      (env : HotplugEnv) (hf : Reachable cap f)
      (h : (f.onStatusChanged cameraId newStatus env).map Prod.fst = some f') :
      Reachable cap f'

/-! ## Concrete environments and factories -/

/-- A scan that finds no device node. -/
def scanNone : ScanEnv :=
  { access := fun _ => false, initRes := fun _ => NO_ERROR,
    hotplug0 := fun _ => CAMERA_DEVICE_STATUS_NOT_PRESENT }

/-- A hotplug call during which the device node is there at once and `Initialize()`
succeeds. -/
def envInitOK : HotplugEnv :=
  { access := fun _ => true, initRes := NO_ERROR,
    hotplug0 := CAMERA_DEVICE_STATUS_NOT_PRESENT }

/-- A hotplug call during which the device node never shows up and `Initialize()` fails
with `-ENODEV`. -/
def envInitFails : HotplugEnv :=
  { access := fun _ => false, initRes := -ENODEV,
    hotplug0 := CAMERA_DEVICE_STATUS_NOT_PRESENT }

/-- A callback table whose `camera_device_status_change` is set. -/
def callbacksSet : camera_module_callbacks_t := { camera_device_status_change := true }

/-- The factory constructed over six slots when no camera is present. -/
def factoryNoCamera : EmulatedCameraFactory :=
  { mEmulatedCameras := [none, none, none, none, none, none], mEmulatedCameraNum := 0,
    mConstructedOK := true, mCallbacks := none, mHotplugThread := true, nextUid := 0 }

/-- The factory `factoryNoCamera` after `setCallbacks` with `callbacksSet`. -/
def factoryListening : EmulatedCameraFactory :=
  { factoryNoCamera with mCallbacks := some callbacksSet }

/-- The handle that an attach of camera `cameraId` stores, allocated with stamp `uid`. -/
def attachedCamera (uid : Nat) (cameraId : Int) : EmulatedBaseCamera :=
  { uid := uid, mCameraID := cameraId, mCameraStatus := CAMERA_INIT,
    mHotplugStatus := CAMERA_DEVICE_STATUS_PRESENT }

/-- The factory `factoryNoCamera` after camera 1 was attached: one camera, in slot 1. -/
def factoryOnlyCamera1 : EmulatedCameraFactory :=
  { factoryNoCamera with
    mEmulatedCameras := [none, some (attachedCamera 0 1), none, none, none, none],
    mEmulatedCameraNum := 1, nextUid := 1 }

/-- The factory `factoryNoCamera` after cameras 0 and 1 were attached, in that order. -/
def factoryCameras01 : EmulatedCameraFactory :=
  { factoryNoCamera with
    mEmulatedCameras :=
      [some (attachedCamera 0 0), some (attachedCamera 1 1), none, none, none, none],
    mEmulatedCameraNum := 2, nextUid := 2 }

/-- The factory `factoryNoCamera` after cameras 0 and 1 were attached and camera 0 was
removed: slot 0 holds a handle marked `CAMERA_READY_REMOVE`, slot 1 a live one. -/
def factoryCamera0Removed : EmulatedCameraFactory :=
  { factoryNoCamera with
    mEmulatedCameras :=
      [some ((attachedCamera 0 0).setCameraStatus CAMERA_READY_REMOVE),
       some (attachedCamera 1 1), none, none, none, none],
    mEmulatedCameraNum := 1, nextUid := 2 }

/-- The factory `factoryListening` after camera 0 was attached. -/
def factoryListeningCamera0 : EmulatedCameraFactory :=
  { factoryListening with
    mEmulatedCameras := [some (attachedCamera 0 0), none, none, none, none, none],
    mEmulatedCameraNum := 1, nextUid := 1 }

/-- The factory `factoryListeningCamera0` after camera 0 was removed: slot 0 keeps its
handle, marked `CAMERA_READY_REMOVE`. -/
def factoryListeningCamera0Removed : EmulatedCameraFactory :=
  { factoryListeningCamera0 with
    mEmulatedCameras :=
      [some ((attachedCamera 0 0).setCameraStatus CAMERA_READY_REMOVE),
       none, none, none, none, none],
    mEmulatedCameraNum := 0 }

/-- The factory `factoryListeningCamera0Removed` after a second handle was allocated for
camera 0 and stored. -/
def factoryListeningCamera0Again : EmulatedCameraFactory :=
  { factoryListeningCamera0 with
    mEmulatedCameras := [some (attachedCamera 1 0), none, none, none, none, none],
    mEmulatedCameraNum := 1, nextUid := 2 }

/-- The factory `factoryListening` after camera 3 was attached. -/
def factoryListeningCamera3 : EmulatedCameraFactory :=
  { factoryListening with
    mEmulatedCameras := [none, none, none, some (attachedCamera 0 3), none, none],
    mEmulatedCameraNum := 1, nextUid := 1 }

/-- The factory `factoryListeningCamera0` with `mConstructedOK` still `false`, as it is
before the constructor's last statement. -/
def factoryNotConstructed : EmulatedCameraFactory :=
  { factoryListeningCamera0 with mConstructedOK := false }

/-- A scan that finds `/dev/video0` only, and during which `Initialize()` of the handle
fails with `-ENODEV`. -/
def scanCamera0InitFails : ScanEnv :=
  { access := fun p => p == "/dev/video0", initRes := fun _ => -ENODEV,
    hotplug0 := fun _ => CAMERA_DEVICE_STATUS_NOT_PRESENT }

/-- The factory constructed over six slots by the scan `scanCamera0InitFails`: slot 0 keeps
the pointer of the handle the constructor deleted, and the count is 1. -/
def factoryCamera0InitFailed : EmulatedCameraFactory :=
  { factoryNoCamera with
    mEmulatedCameras :=
      [some (newEmulatedFakeCamera3 0 0 CAMERA_DEVICE_STATUS_NOT_PRESENT),
       none, none, none, none, none],
    mEmulatedCameraNum := 1, nextUid := 1 }

/-- A scan that finds `/dev/video2` only, every `Initialize()` succeeding. -/
def scanOnlyVideo2 : ScanEnv :=
  { access := fun p => p == "/dev/video2", initRes := fun _ => NO_ERROR,
    hotplug0 := fun _ => CAMERA_DEVICE_STATUS_NOT_PRESENT }

/-- The notifications among the effects of a call, in order. -/
def notifications (r : Option (EmulatedCameraFactory × List Effect)) : Option (List Effect) :=
  r.map (fun p => p.2.filter Effect.isStatusChange)

/-! ## Lemmas on the handle and the loops -/

open EmulatedCameraFactory

@[simp] theorem getCameraStatus_setCameraStatus (c : EmulatedBaseCamera) (s : CameraStatus) :
    (c.setCameraStatus s).getCameraStatus = s := rfl

@[simp] theorem getCameraStatus_plugCamera (c : EmulatedBaseCamera) :
    c.plugCamera.getCameraStatus = c.getCameraStatus := rfl

@[simp] theorem getHotplugStatus_plugCamera (c : EmulatedBaseCamera) :
    c.plugCamera.getHotplugStatus = CAMERA_DEVICE_STATUS_PRESENT := rfl

@[simp] theorem getHotplugStatus_setCameraStatus (c : EmulatedBaseCamera) (s : CameraStatus) :
    (c.setCameraStatus s).getHotplugStatus = c.getHotplugStatus := rfl

@[simp] theorem getCameraStatus_new (uid : Nat) (cameraId hotplug0 : Int) :
    (newEmulatedFakeCamera3 uid cameraId hotplug0).getCameraStatus = CAMERA_INIT := rfl

@[simp] theorem slotOccupied_some (c : EmulatedBaseCamera) :
    slotOccupied (some c) = decide (c.getCameraStatus ≠ CAMERA_READY_REMOVE) := rfl

@[simp] theorem slotOccupied_none : slotOccupied none = false := rfl

theorem releaseLoop_fst (l : List (Option EmulatedBaseCamera)) (i : Nat) :
    (releaseLoop i l).1 = l.map releaseSlot := by
  induction l generalizing i with
  | nil => rfl
  | cons s rest ih =>
    cases s with
    | none => simp [releaseLoop, releaseSlot, ih]
    | some c =>
      by_cases hc : c.getCameraStatus = CAMERA_READY_REMOVE <;>
        simp [releaseLoop, releaseSlot, ih, hc]

theorem slotOccupied_releaseSlot (s : Option EmulatedBaseCamera) :
    slotOccupied (releaseSlot s) = slotOccupied s := by
  cases s with
  | none => rfl
  | some c =>
    by_cases hc : c.getCameraStatus = CAMERA_READY_REMOVE <;>
      simp [releaseSlot, slotOccupied, hc]

theorem occupiedCount_release (l : List (Option EmulatedBaseCamera)) :
    occupiedCount (l.map releaseSlot) = occupiedCount l := by
  induction l with
  | nil => rfl
  | cons s rest ih =>
    simp only [occupiedCount, List.map_cons, List.countP_cons, slotOccupied_releaseSlot] at *
    rw [ih]

theorem occupiedCount_le (l : List (Option EmulatedBaseCamera)) :
    occupiedCount l ≤ l.length := List.countP_le_length _

theorem occupiedCount_set (l : List (Option EmulatedBaseCamera)) (i : Nat)
    (x : Option EmulatedBaseCamera) (hi : i < l.length) :
    (occupiedCount (l.set i x) : Int) =
      occupiedCount l - (if slotOccupied (l.getD i none) then 1 else 0)
        + (if slotOccupied x then 1 else 0) := by
  induction l generalizing i with
  | nil => simp at hi
  | cons s rest ih =>
    cases i with
    | zero =>
      simp only [occupiedCount, List.set_cons_zero, List.countP_cons, List.getD_cons_zero]
      push_cast
      split <;> split <;> simp
    | succ j =>
      have hj : j < rest.length := by simpa using hi
      have := ih j hj
      simp only [occupiedCount, List.set_cons_succ, List.countP_cons, List.getD_cons_succ] at *
      push_cast
      rw [this]
      ring

theorem getD_map_releaseSlot (l : List (Option EmulatedBaseCamera)) (i : Nat) :
    (l.map releaseSlot).getD i none = releaseSlot (l.getD i none) := by
  induction l generalizing i with
  | nil => simp [releaseSlot]
  | cons s rest ih =>
    cases i with
    | zero => simp
    | succ j => simpa using ih j

theorem releaseSlot_eq_some {s : Option EmulatedBaseCamera} {c : EmulatedBaseCamera}
    (h : releaseSlot s = some c) : s = some c ∧ c.getCameraStatus ≠ CAMERA_READY_REMOVE := by
  cases s with
  | none => simp [releaseSlot] at h
  | some d =>
    by_cases hd : d.getCameraStatus = CAMERA_READY_REMOVE
    · simp [releaseSlot, hd] at h
    · simp [releaseSlot, hd] at h
      subst h
      exact ⟨rfl, hd⟩

theorem onStatusChanged_step (f : EmulatedCameraFactory) (id : Nat)
    (hid : id < f.MAX_CAMERA_NUM) (newStatus : Int) (env : HotplugEnv)
    (hinv : f.mEmulatedCameraNum = occupiedCount f.mEmulatedCameras) :
    ∃ f' es, f.onStatusChanged id newStatus env = some (f', es) ∧
      f'.mEmulatedCameraNum = occupiedCount f'.mEmulatedCameras ∧
      f'.MAX_CAMERA_NUM = f.MAX_CAMERA_NUM ∧
      f'.mConstructedOK = f.mConstructedOK := by
  have hlen : id < (f.mEmulatedCameras.map releaseSlot).length := by
    simpa [MAX_CAMERA_NUM] using hid
  have hguard : ¬ ((id : Int) < 0 ∨ (f.MAX_CAMERA_NUM : Int) ≤ (id : Int)) := by
    omega
  have hset := fun x => occupiedCount_set (f.mEmulatedCameras.map releaseSlot) id x hlen
  rw [occupiedCount_release] at hset
  unfold EmulatedCameraFactory.onStatusChanged
  rw [if_neg hguard]
  simp only [releaseLoop_fst, Int.toNat_ofNat]
  cases hslot : (f.mEmulatedCameras.map releaseSlot).getD id none with
  | none =>
    simp only
    rw [hslot] at hset
    by_cases hres : env.initRes = NO_ERROR
    · simp only [hres, ne_eq, not_true_eq_false, if_false]
      split <;>
        refine ⟨_, _, rfl, ?_, by simp [MAX_CAMERA_NUM], rfl⟩ <;>
        simp only [hinv, hset] <;> simp
    · simp only [ne_eq, hres, not_false_eq_true, if_true]
      exact ⟨_, _, rfl, by simp [occupiedCount_release, hinv], by simp [MAX_CAMERA_NUM], rfl⟩
  | some cam =>
    simp only
    rw [hslot] at hset
    rw [getD_map_releaseSlot] at hslot
    have hcam := (releaseSlot_eq_some hslot).2
    split
    · exact ⟨_, _, rfl, by simp [occupiedCount_release, hinv], by simp [MAX_CAMERA_NUM], rfl⟩
    · split
      · refine ⟨_, _, rfl, ?_, by simp [MAX_CAMERA_NUM], rfl⟩
        simp only [hinv, hset]
        simp [hcam]
      · split
        · refine ⟨_, _, rfl, ?_, by simp [MAX_CAMERA_NUM], rfl⟩
          simp only [hinv, hset]
          simp [hcam]
        · exact ⟨_, _, rfl, by simp [occupiedCount_release, hinv], by simp [MAX_CAMERA_NUM], rfl⟩

theorem getCameraNumLoop_bounds (access : String → Bool) (l : List String) (n : Int) :
    n ≤ getCameraNumLoop access l n ∧ getCameraNumLoop access l n ≤ n + l.length := by
  induction l generalizing n with
  | nil => simp [getCameraNumLoop]
  | cons p rest ih =>
    simp only [getCameraNumLoop, List.length_cons]
    split
    · have := ih (n + 1)
      push_cast
      omega
    · have := ih n
      push_cast
      omega

theorem getCameraNum_bounds (access : String → Bool) :
    0 ≤ getCameraNum access ∧ getCameraNum access ≤ 6 := by
  have := getCameraNumLoop_bounds access SENSOR_PATH 0
  simpa [getCameraNum, SENSOR_PATH] using this

theorem ctorLoop_inv (env : ScanEnv) (k : Nat) :
    ∀ (i : Nat) (slots : List (Option EmulatedBaseCamera)),
      i + k ≤ slots.length → (∀ j, i ≤ j → slots.getD j none = none) →
      (ctorLoop env k i slots).1.length = slots.length ∧
      occupiedCount (ctorLoop env k i slots).1 = occupiedCount slots + k := by
  induction k with
  | zero => intro i slots _ _; simp [ctorLoop]
  | succ k ih =>
    intro i slots hlen hnone
    have hi : i < slots.length := by omega
    have hset := occupiedCount_set slots i
      (some (newEmulatedFakeCamera3 i (i : Int) (env.hotplug0 i))) hi
    rw [hnone i (le_refl i)] at hset
    simp at hset
    have hrest := ih (i + 1)
      (slots.set i (some (newEmulatedFakeCamera3 i (i : Int) (env.hotplug0 i))))
      (by simp; omega)
      (by
        intro j hj
        have hne : i ≠ j := by omega
        have := hnone j (by omega)
        simp only [List.getD_eq_getElem?_getD] at this ⊢
        rw [List.getElem?_set_ne hne]
        exact this)
    have hfst : (ctorLoop env (k + 1) i slots).1 =
        (ctorLoop env k (i + 1)
          (slots.set i (some (newEmulatedFakeCamera3 i (i : Int) (env.hotplug0 i))))).1 := by
      simp only [ctorLoop]
      split <;> rfl
    rw [hfst]
    refine ⟨by simpa using hrest.1, ?_⟩
    rw [hrest.2]
    omega

theorem ctor_inv (cap : Nat) (env : ScanEnv) (f : EmulatedCameraFactory) (es : List Effect)
    (h : EmulatedCameraFactory.ctor cap env = some (f, es)) : FactoryInv cap f := by
  have hb := getCameraNum_bounds env.access
  unfold EmulatedCameraFactory.ctor at h
  simp only at h
  split at h
  · simp at h
  · rename_i hcap
    simp only [Option.some.injEq, Prod.mk.injEq] at h
    have hloop := ctorLoop_inv env (getCameraNum env.access).toNat 0 (List.replicate cap none)
      (by simp; omega) (by intro j _; simp [List.getElem?_replicate]; split <;> rfl)
    rw [← h.1]
    refine ⟨rfl, ?_, ?_⟩
    · simpa [MAX_CAMERA_NUM] using hloop.1
    · simp only [hloop.2]
      have h0 : occupiedCount (List.replicate cap (none : Option EmulatedBaseCamera)) = 0 := by
        simp [occupiedCount, List.countP_replicate]
      rw [h0]
      push_cast
      omega

theorem onStatusChanged_in_range (f : EmulatedCameraFactory) (cameraId newStatus : Int)
    (env : HotplugEnv) (r : EmulatedCameraFactory × List Effect)
    (h : f.onStatusChanged cameraId newStatus env = some r) :
    0 ≤ cameraId ∧ cameraId < f.MAX_CAMERA_NUM := by
  unfold EmulatedCameraFactory.onStatusChanged at h
  split at h
  · simp at h
  · omega

theorem reachable_inv (cap : Nat) (f : EmulatedCameraFactory) (h : Reachable cap f) :
    FactoryInv cap f := by
  induction h with
  | ctor env f h =>
    cases hc : EmulatedCameraFactory.ctor cap env with
    | none => simp [hc] at h
    | some r =>
      obtain ⟨g, es⟩ := r
      simp [hc] at h
      subst h
      exact ctor_inv cap env g es hc
  | setCallbacks f callbacks _ ih => exact ih
  | onStatusChanged f f' cameraId newStatus env _ h ih =>
    cases hc : f.onStatusChanged cameraId newStatus env with
    | none => simp [hc] at h
    | some r =>
      have hr := onStatusChanged_in_range f cameraId newStatus env r hc
      obtain ⟨f2, es, h2, hnum, hmax, hok⟩ :=
        onStatusChanged_step f cameraId.toNat (by omega) newStatus env ih.2.2
      rw [Int.toNat_of_nonneg hr.1] at h2
      rw [h2] at h
      simp at h
      subst h
      exact ⟨hok.trans ih.1, hmax.trans ih.2.1, hnum⟩

theorem reachable_factoryNoCamera : Reachable 6 factoryNoCamera :=
  Reachable.ctor scanNone factoryNoCamera (by decide)

theorem reachable_factoryListening : Reachable 6 factoryListening :=
  Reachable.setCallbacks factoryNoCamera (some callbacksSet) reachable_factoryNoCamera

theorem reachable_factoryOnlyCamera1 : Reachable 6 factoryOnlyCamera1 :=
  Reachable.onStatusChanged factoryNoCamera factoryOnlyCamera1 1 CAMERA_DEVICE_STATUS_PRESENT
    envInitOK reachable_factoryNoCamera (by decide)

theorem reachable_factoryCameras01 : Reachable 6 factoryCameras01 :=
  Reachable.onStatusChanged _ factoryCameras01 1 CAMERA_DEVICE_STATUS_PRESENT envInitOK
    (Reachable.onStatusChanged factoryNoCamera _ 0 CAMERA_DEVICE_STATUS_PRESENT
      envInitOK reachable_factoryNoCamera rfl) (by decide)

theorem reachable_factoryCamera0Removed : Reachable 6 factoryCamera0Removed :=
  Reachable.onStatusChanged factoryCameras01 factoryCamera0Removed 0
    CAMERA_DEVICE_STATUS_NOT_PRESENT envInitOK reachable_factoryCameras01 (by decide)

theorem reachable_factoryListeningCamera0 : Reachable 6 factoryListeningCamera0 :=
  Reachable.onStatusChanged factoryListening factoryListeningCamera0 0
    CAMERA_DEVICE_STATUS_PRESENT envInitOK reachable_factoryListening (by decide)

@[simp] theorem setCameraStatus_new (uid : Nat) (cameraId hotplug0 : Int) :
    (newEmulatedFakeCamera3 uid cameraId hotplug0).setCameraStatus CAMERA_INIT =
      newEmulatedFakeCamera3 uid cameraId hotplug0 := rfl

theorem releaseLoop_snd_mem (l : List (Option EmulatedBaseCamera)) (i : Nat) (e : Effect)
    (he : e ∈ (releaseLoop i l).2) :
    ∃ j c, e = Effect.deleteSlot (i + j) (c.setCameraStatus CAMERA_INIT) ∧
      l.getD j none = some c ∧ c.getCameraStatus = CAMERA_READY_REMOVE := by
  induction l generalizing i with
  | nil => simp [releaseLoop] at he
  | cons s rest ih =>
    cases s with
    | none =>
      simp only [releaseLoop] at he
      obtain ⟨j, c, h1, h2, h3⟩ := ih (i + 1) he
      exact ⟨j + 1, c, by rw [h1]; congr 1; omega, by simpa using h2, h3⟩
    | some d =>
      by_cases hd : d.getCameraStatus = CAMERA_READY_REMOVE
      · simp only [releaseLoop, hd, if_true, List.mem_cons] at he
        rcases he with h | h
        · exact ⟨0, d, by simpa using h, by simp, hd⟩
        · obtain ⟨j, c, h1, h2, h3⟩ := ih (i + 1) h
          exact ⟨j + 1, c, by rw [h1]; congr 1; omega, by simpa using h2, h3⟩
      · simp only [releaseLoop, hd, if_false] at he
        obtain ⟨j, c, h1, h2, h3⟩ := ih (i + 1) he
        exact ⟨j + 1, c, by rw [h1]; congr 1; omega, by simpa using h2, h3⟩

theorem releaseLoop_none (l : List (Option EmulatedBaseCamera)) (i : Nat)
    (h : ∀ s ∈ l, s = none) : releaseLoop i l = (l, []) := by
  induction l generalizing i with
  | nil => rfl
  | cons s rest ih =>
    have hs : s = none := h s (List.mem_cons_self s rest)
    subst hs
    simp [releaseLoop, ih (i + 1) (fun s hs => h s (List.mem_cons_of_mem _ hs))]

theorem waitLoop_mem (access : Nat → Bool) (cameraId : Int) (k i : Nat) (e : Effect)
    (he : e ∈ waitLoop access cameraId k i) :
    e = Effect.usleep 200000 ∨ ∃ ok, e = Effect.access cameraId ok := by
  induction k generalizing i with
  | zero => simp [waitLoop] at he
  | succ k ih =>
    simp only [waitLoop] at he
    split at he
    · simp only [List.mem_singleton] at he
      exact Or.inr ⟨true, he⟩
    · simp only [List.mem_cons] at he
      rcases he with h | h | h
      · exact Or.inr ⟨false, h⟩
      · exact Or.inl h
      · exact ih (i + 1) h

theorem waitLoop_filter_isStatusChange (access : Nat → Bool) (cameraId : Int) (k i : Nat) :
    (waitLoop access cameraId k i).filter Effect.isStatusChange = [] := by
  rw [List.filter_eq_nil_iff]
  intro e he
  rcases waitLoop_mem access cameraId k i e he with h | ⟨ok, h⟩ <;> subst h <;>
    simp [Effect.isStatusChange]

theorem deleteSlot_mem_releaseLoop (l : List (Option EmulatedBaseCamera)) (j : Nat)
    (d : EmulatedBaseCamera) (h : Effect.deleteSlot j d ∈ (releaseLoop 0 l).2) :
    ∃ c, l.getD j none = some c ∧ c.getCameraStatus = CAMERA_READY_REMOVE ∧
      d = c.setCameraStatus CAMERA_INIT := by
  obtain ⟨k, c, h1, h2, h3⟩ := releaseLoop_snd_mem l 0 _ h
  simp only [Effect.deleteSlot.injEq, Nat.zero_add] at h1
  obtain ⟨hj, hd⟩ := h1
  subst hj
  exact ⟨c, h2, h3, hd⟩

theorem deleteCam_not_mem_releaseLoop (l : List (Option EmulatedBaseCamera))
    (d : EmulatedBaseCamera) : Effect.deleteCam d ∉ (releaseLoop 0 l).2 := by
  intro h
  obtain ⟨k, c, h1, _, _⟩ := releaseLoop_snd_mem l 0 _ h
  simp at h1

theorem deleteSlot_not_mem_waitLoop (access : Nat → Bool) (cameraId : Int) (k i j : Nat)
    (d : EmulatedBaseCamera) : Effect.deleteSlot j d ∉ waitLoop access cameraId k i := by
  intro h
  rcases waitLoop_mem access cameraId k i _ h with h | ⟨ok, h⟩ <;> simp at h

theorem deleteCam_not_mem_waitLoop (access : Nat → Bool) (cameraId : Int) (k i : Nat)
    (d : EmulatedBaseCamera) : Effect.deleteCam d ∉ waitLoop access cameraId k i := by
  intro h
  rcases waitLoop_mem access cameraId k i _ h with h | ⟨ok, h⟩ <;> simp at h

theorem releaseLoop_filter_isStatusChange (l : List (Option EmulatedBaseCamera)) (i : Nat) :
    (releaseLoop i l).2.filter Effect.isStatusChange = [] := by
  rw [List.filter_eq_nil_iff]
  intro e he
  obtain ⟨j, c, h, _, _⟩ := releaseLoop_snd_mem l i e he
  subst h
  simp [Effect.isStatusChange]

theorem atoiDigits_nonneg (ds : List Char) (acc : Int) (hacc : 0 ≤ acc) :
    acc ≤ atoiDigits acc ds := by
  induction ds generalizing acc with
  | nil => simp [atoiDigits]
  | cons c rest ih =>
    simp only [atoiDigits]
    split
    · rename_i hc
      have := ih (acc * 10 + ((c.toNat : Int) - 48)) (by omega)
      omega
    · exact le_refl acc

theorem atoiDigits_pos (ds : List Char) (acc : Int) (hacc : 0 ≤ acc)
    (hdigits : ∀ c ∈ ds, 48 ≤ c.toNat ∧ c.toNat ≤ 57)
    (hnz : 0 < acc ∨ ∃ c ∈ ds, c.toNat ≠ 48) : 0 < atoiDigits acc ds := by
  induction ds generalizing acc with
  | nil =>
    rcases hnz with h | ⟨c, hc, _⟩
    · simpa [atoiDigits] using h
    · simp at hc
  | cons c rest ih =>
    have hc := hdigits c (List.mem_cons_self c rest)
    simp only [atoiDigits, hc, and_self, if_true]
    apply ih _ (by omega) (fun d hd => hdigits d (List.mem_cons_of_mem c hd))
    rcases hnz with h | ⟨d, hd, hd0⟩
    · left; omega
    · rcases List.mem_cons.mp hd with h | h
      · subst h
        left; omega
      · exact Or.inr ⟨d, h, hd0⟩

theorem atoiValue_minus (ds : List Char) : atoiValue ('-' :: ds) = - atoiDigits 0 ds := by
  have h : atoiSkipSpace ('-' :: ds) = '-' :: ds := by
    simp only [atoiSkipSpace]
    rw [if_neg (by decide)]
  simp only [atoiValue, h]

theorem atoiValue_no_digit (c : Char) (cs : List Char)
    (hsp : ¬ (c.toNat = 32 ∨ (9 ≤ c.toNat ∧ c.toNat ≤ 13))) (hminus : c ≠ '-')
    (hplus : c ≠ '+') (hdig : ¬ (48 ≤ c.toNat ∧ c.toNat ≤ 57)) :
    atoiValue (c :: cs) = 0 := by
  have hskip : atoiSkipSpace (c :: cs) = c :: cs := by
    simp only [atoiSkipSpace]
    rw [if_neg hsp]
  have hd : atoiDigits 0 (c :: cs) = 0 := by
    simp only [atoiDigits]
    rw [if_neg hdig]
  unfold atoiValue
  rw [hskip]
  split
  · rename_i h
    simp only [List.cons.injEq] at h
    exact absurd h.1 hminus
  · rename_i h
    simp only [List.cons.injEq] at h
    exact absurd h.1 hplus
  · exact hd

theorem dtorLoop_eq (slots : List (Option EmulatedBaseCamera)) (k : Nat) :
    ∀ n, n + k ≤ slots.length →
      dtorLoop slots k n =
        some ((List.range' n k).filterMap
          (fun i => (slots.getD i none).map (fun cam => Effect.deleteSlot i cam))) := by
  induction k with
  | zero => intro n _; rfl
  | succ k ih =>
    intro n hn
    have hlt : n < slots.length := by omega
    have hrec := ih (n + 1) (by omega)
    cases hs : slots[n]? with
    | none =>
      rw [List.getElem?_eq_none_iff] at hs
      omega
    | some s =>
      cases s with
      | none =>
        simp only [dtorLoop, List.get?_eq_getElem?, hs, hrec, List.range'_succ,
          List.filterMap_cons, List.getD_eq_getElem?_getD, Option.getD_some, Option.map_none']
      | some cam =>
        simp only [dtorLoop, List.get?_eq_getElem?, hs, hrec, List.range'_succ,
          List.filterMap_cons, List.getD_eq_getElem?_getD, Option.getD_some,
          Option.map_some']

theorem releaseLoop_filter (p : Effect → Bool) (hp : ∀ i c, p (Effect.deleteSlot i c) = false)
    (l : List (Option EmulatedBaseCamera)) (i : Nat) : (releaseLoop i l).2.filter p = [] := by
  rw [List.filter_eq_nil_iff]
  intro e he
  obtain ⟨j, c, h, _, _⟩ := releaseLoop_snd_mem l i e he
  subst h
  simp [hp]

theorem waitLoop_failedProbes (access : Nat → Bool) (cameraId : Int) (k i : Nat) :
    ((waitLoop access cameraId k i).filter Effect.isFailedProbe).length ≤ k := by
  induction k generalizing i with
  | zero => simp [waitLoop]
  | succ k ih =>
    simp only [waitLoop]
    split
    · simp [Effect.isFailedProbe]
    · have := ih (i + 1)
      simp only [List.filter_cons, Effect.isFailedProbe, if_true, List.length_cons,
        Bool.false_eq_true, if_false]
      omega

theorem waitLoop_sleeps (access : Nat → Bool) (cameraId : Int) (k i : Nat) :
    ((waitLoop access cameraId k i).filter Effect.isSleep).length ≤ k := by
  induction k generalizing i with
  | zero => simp [waitLoop]
  | succ k ih =>
    simp only [waitLoop]
    split
    · simp [Effect.isSleep]
    · have := ih (i + 1)
      simp only [List.filter_cons, Effect.isSleep, if_true, List.length_cons,
        Bool.false_eq_true, if_false]
      omega

theorem releaseLoop_deletes_marked (l : List (Option EmulatedBaseCamera)) (i j : Nat)
    (c : EmulatedBaseCamera) (hj : l.getD j none = some c)
    (hc : c.getCameraStatus = CAMERA_READY_REMOVE) :
    Effect.deleteSlot (i + j) (c.setCameraStatus CAMERA_INIT) ∈ (releaseLoop i l).2 := by
  induction l generalizing i j with
  | nil => simp at hj
  | cons s rest ih =>
    cases j with
    | zero =>
      simp only [List.getD_cons_zero] at hj
      subst hj
      simp [releaseLoop, hc]
    | succ j =>
      simp only [List.getD_cons_succ] at hj
      have h := ih (i + 1) j hj
      have hidx : i + 1 + j = i + (j + 1) := by omega
      rw [hidx] at h
      cases s with
      | none => simpa [releaseLoop] using h
      | some d =>
        by_cases hd : d.getCameraStatus = CAMERA_READY_REMOVE
        · simp only [releaseLoop, hd, if_true, List.mem_cons]
          exact Or.inr h
        · simpa [releaseLoop, hd] using h

theorem getD_set_ne (l : List (Option EmulatedBaseCamera)) (i j : Nat)
    (x : Option EmulatedBaseCamera) (h : j ≠ i) : (l.set i x).getD j none = l.getD j none := by
  simp only [List.getD_eq_getElem?_getD]
  rw [List.getElem?_set_ne (Ne.symm h)]

theorem onStatusChanged_cases (f : EmulatedCameraFactory) (id : Nat)
    (hid : id < f.MAX_CAMERA_NUM) (newStatus : Int) (env : HotplugEnv) :
    ∃ f' es, f.onStatusChanged id newStatus env = some (f', es) ∧
      (∀ e ∈ (releaseLoop 0 f.mEmulatedCameras).2, e ∈ es) ∧
      f'.mCallbacks = f.mCallbacks ∧
      ((f'.mEmulatedCameras = f.mEmulatedCameras.map releaseSlot ∧
          f'.mEmulatedCameraNum = f.mEmulatedCameraNum) ∨
        (releaseSlot (f.mEmulatedCameras.getD id none) = none ∧
          f'.mEmulatedCameras = (f.mEmulatedCameras.map releaseSlot).set id
            (some (newEmulatedFakeCamera3 f.nextUid id env.hotplug0).plugCamera) ∧
          f'.mEmulatedCameraNum = f.mEmulatedCameraNum + 1) ∨
        (∃ cam, f.mEmulatedCameras.getD id none = some cam ∧
          cam.getCameraStatus ≠ CAMERA_READY_REMOVE ∧
          f'.mEmulatedCameras = (f.mEmulatedCameras.map releaseSlot).set id
            (some (cam.setCameraStatus CAMERA_READY_REMOVE)) ∧
          f'.mEmulatedCameraNum = f.mEmulatedCameraNum - 1) ∨
        (∃ cam, f.mEmulatedCameras.getD id none = some cam ∧
          cam.getCameraStatus ≠ CAMERA_READY_REMOVE ∧
          f'.mEmulatedCameras = (f.mEmulatedCameras.map releaseSlot).set id
            (some cam.plugCamera) ∧
          f'.mEmulatedCameraNum = f.mEmulatedCameraNum)) := by
  have hguard : ¬ ((id : Int) < 0 ∨ (f.MAX_CAMERA_NUM : Int) ≤ (id : Int)) := by
    omega
  unfold EmulatedCameraFactory.onStatusChanged
  rw [if_neg hguard]
  simp only [releaseLoop_fst, Int.toNat_ofNat, setCameraStatus_new]
  cases hslot : (f.mEmulatedCameras.map releaseSlot).getD id none with
  | none =>
    simp only
    have hslot' := hslot
    rw [getD_map_releaseSlot] at hslot'
    by_cases hres : env.initRes = NO_ERROR
    · simp only [hres, ne_eq, not_true_eq_false, if_false]
      split <;>
        exact ⟨_, _, rfl, fun e he => by simp [he], rfl, Or.inr (Or.inl ⟨hslot', rfl, rfl⟩)⟩
    · simp only [ne_eq, hres, not_false_eq_true, if_true]
      exact ⟨_, _, rfl, fun e he => by simp [he], rfl, Or.inl ⟨rfl, rfl⟩⟩
  | some cam =>
    simp only
    rw [getD_map_releaseSlot] at hslot
    obtain ⟨hold, hcam⟩ := releaseSlot_eq_some hslot
    split
    · exact ⟨_, _, rfl, fun e he => he, rfl, Or.inl ⟨rfl, rfl⟩⟩
    · split
      · exact ⟨_, _, rfl, fun e he => he, rfl,
          Or.inr (Or.inr (Or.inl ⟨cam, hold, hcam, rfl, rfl⟩))⟩
      · split
        · exact ⟨_, _, rfl, fun e he => by simp [he], rfl,
            Or.inr (Or.inr (Or.inr ⟨cam, hold, hcam, rfl, rfl⟩))⟩
        · exact ⟨_, _, rfl, fun e he => he, rfl, Or.inl ⟨rfl, rfl⟩⟩

theorem releaseSlot_marked {s : Option EmulatedBaseCamera} {c : EmulatedBaseCamera}
    (hs : s = some c) (hc : c.getCameraStatus = CAMERA_READY_REMOVE) :
    releaseSlot s = none := by
  subst hs
  simp [releaseSlot, hc]

theorem releaseSlot_unmarked (s : Option EmulatedBaseCamera)
    (hs : ∀ c, s = some c → c.getCameraStatus ≠ CAMERA_READY_REMOVE) : releaseSlot s = s := by
  cases s with
  | none => rfl
  | some c => simp [releaseSlot, hs c rfl]

theorem getCameraNumLoop_eq (access : String → Bool) (l : List String) (n : Int) :
    getCameraNumLoop access l n = n + (l.filter access).length := by
  induction l generalizing n with
  | nil => simp [getCameraNumLoop]
  | cons p rest ih =>
    simp only [getCameraNumLoop, List.filter_cons]
    split
    · rw [ih]
      simp only [List.length_cons]
      push_cast
      ring
    · rw [ih]

theorem getCameraNum_eq (access : String → Bool) :
    getCameraNum access = (SENSOR_PATH.filter access).length := by
  simp [getCameraNum, getCameraNumLoop_eq]

theorem ctorLoop_getD (env : ScanEnv) (k : Nat) :
    ∀ (i : Nat) (slots : List (Option EmulatedBaseCamera)) (j : Nat),
      i + k ≤ slots.length →
      (ctorLoop env k i slots).1.getD j none =
        if i ≤ j ∧ j < i + k then some (newEmulatedFakeCamera3 j (j : Int) (env.hotplug0 j))
        else slots.getD j none := by
  induction k with
  | zero =>
    intro i slots j _
    have hno : ¬ (i ≤ j ∧ j < i + 0) := by omega
    rw [if_neg hno]
    rfl
  | succ k ih =>
    intro i slots j hlen
    have hi : i < slots.length := by omega
    have hfst : (ctorLoop env (k + 1) i slots).1 =
        (ctorLoop env k (i + 1)
          (slots.set i (some (newEmulatedFakeCamera3 i (i : Int) (env.hotplug0 i))))).1 := by
      simp only [ctorLoop]
      split <;> rfl
    rw [hfst, ih (i + 1) _ j (by simp; omega)]
    by_cases hj : j = i
    · subst hj
      have h1 : ¬ (j + 1 ≤ j ∧ j < j + 1 + k) := by omega
      have h2 : j ≤ j ∧ j < j + (k + 1) := by omega
      rw [if_neg h1, if_pos h2]
      simp only [List.getD_eq_getElem?_getD, List.getElem?_set_self hi, Option.getD_some]
    · rw [getD_set_ne _ _ _ _ hj]
      by_cases hr : i + 1 ≤ j ∧ j < i + 1 + k
      · have h2 : i ≤ j ∧ j < i + (k + 1) := by omega
        rw [if_pos hr, if_pos h2]
      · have h2 : ¬ (i ≤ j ∧ j < i + (k + 1)) := by omega
        rw [if_neg hr, if_neg h2]

/-! ## The claims -/

/-- C1 (fails on the code): on a factory reached from construction by hotplug events, an
id inside the table whose slot is Absent is not always answered with `-ENODEV`.  Right
after a construction that found no camera, `cameraDeviceOpen(0)` does return `-ENODEV`
(Scenario E).  But with only camera 1 attached, `getCameraInfo(0)` and
`cameraDeviceOpen(0)` dispatch through the NULL slot 0; and with camera 0 removed and
camera 1 attached they dispatch to the handle of slot 0 that is marked
`CAMERA_READY_REMOVE`. -/
theorem C1_absent_slot_is_dispatched :
    (Reachable 6 factoryNoCamera ∧ factoryNoCamera.getEmulatedCameraNum = 0 ∧
      factoryNoCamera.cameraDeviceOpen 0 = CallResult.ret (-ENODEV)) ∧
    (Reachable 6 factoryOnlyCamera1 ∧
      slotOccupied (factoryOnlyCamera1.mEmulatedCameras.getD 0 none) = false ∧
      factoryOnlyCamera1.getCameraInfo 0 = CallResult.nullDeref ∧
      factoryOnlyCamera1.cameraDeviceOpen 0 = CallResult.nullDeref) ∧
    (Reachable 6 factoryCamera0Removed ∧
      slotOccupied (factoryCamera0Removed.mEmulatedCameras.getD 0 none) = false ∧
      factoryCamera0Removed.getCameraInfo 0 =
        CallResult.getCameraInfo ((attachedCamera 0 0).setCameraStatus CAMERA_READY_REMOVE) ∧
      factoryCamera0Removed.cameraDeviceOpen 0 =
        CallResult.connectCamera ((attachedCamera 0 0).setCameraStatus CAMERA_READY_REMOVE)) :=
  ⟨⟨reachable_factoryNoCamera, by decide, by decide⟩,
   ⟨reachable_factoryOnlyCamera1, by decide, by decide, by decide⟩,
   ⟨reachable_factoryCamera0Removed, by decide, by decide, by decide⟩⟩

/-- C2: on every factory reachable from construction by `setCallbacks` and in-range
hotplug events, the occupied count does not exceed the capacity of the table, and for
every id below 0 or at least the capacity both `cameraDeviceOpen` and `getCameraInfo`
return `-ENODEV`. -/
theorem C2_out_of_range_is_ENODEV (cap : Nat) (f : EmulatedCameraFactory)
    (hf : Reachable cap f) (camera_id : Int)
    (hid : camera_id < 0 ∨ (cap : Int) ≤ camera_id) :
    f.MAX_CAMERA_NUM = cap ∧ f.getEmulatedCameraNum ≤ cap ∧
      f.cameraDeviceOpen camera_id = CallResult.ret (-ENODEV) ∧
      f.getCameraInfo camera_id = CallResult.ret (-ENODEV) := by
  obtain ⟨hok, hmax, hnum⟩ := reachable_inv cap f hf
  have hle : f.mEmulatedCameraNum ≤ cap := by
    have := occupiedCount_le f.mEmulatedCameras
    rw [MAX_CAMERA_NUM] at hmax
    omega
  have hcond : camera_id < 0 ∨ camera_id ≥ f.getEmulatedCameraNum := by
    rcases hid with h | h
    · exact Or.inl h
    · right
      simp only [getEmulatedCameraNum]
      omega
  refine ⟨hmax, hle, ?_, ?_⟩
  · simp [cameraDeviceOpen, isConstructedOK, hok, hcond]
  · simp [getCameraInfo, isConstructedOK, hok, hcond]

/-- Witness of C2 on the factory with only camera 1 attached, for id 6 of a table of 6. -/
theorem C2_out_of_range_is_ENODEV_witness :
    Reachable 6 factoryOnlyCamera1 ∧ ((6 : Int) < 0 ∨ ((6 : Nat) : Int) ≤ 6) ∧
      (factoryOnlyCamera1.MAX_CAMERA_NUM = 6 ∧ factoryOnlyCamera1.getEmulatedCameraNum ≤ (6 : Nat) ∧
        factoryOnlyCamera1.cameraDeviceOpen 6 = CallResult.ret (-ENODEV) ∧
        factoryOnlyCamera1.getCameraInfo 6 = CallResult.ret (-ENODEV)) :=
  ⟨reachable_factoryOnlyCamera1, by decide,
    C2_out_of_range_is_ENODEV 6 factoryOnlyCamera1 reachable_factoryOnlyCamera1 6 (by decide)⟩

/-- C3 (fails on the code): delivering NotPresent for camera 0 twice in a row to the
reachable factory that holds camera 0 as Present.  The first call marks the handle and
takes the count from 1 to 0 without a notification.  The second call is not a no-op:
it reclaims the handle, allocates a new one, stores it, takes the count back to 1 and
calls the callback with `(0, NotPresent)`. -/
theorem C3_second_NotPresent_is_not_ignored :
    Reachable 6 factoryListeningCamera0 ∧
    (factoryListeningCamera0.onStatusChanged 0 CAMERA_DEVICE_STATUS_NOT_PRESENT envInitOK).map
        Prod.fst = some factoryListeningCamera0Removed ∧
    notifications (factoryListeningCamera0.onStatusChanged 0 CAMERA_DEVICE_STATUS_NOT_PRESENT
        envInitOK) = some [] ∧
    (factoryListeningCamera0Removed.onStatusChanged 0 CAMERA_DEVICE_STATUS_NOT_PRESENT
        envInitOK).map Prod.fst = some factoryListeningCamera0Again ∧
    notifications (factoryListeningCamera0Removed.onStatusChanged 0
        CAMERA_DEVICE_STATUS_NOT_PRESENT envInitOK) =
      some [Effect.camera_device_status_change 0 CAMERA_DEVICE_STATUS_NOT_PRESENT
        factoryListeningCamera0Again] ∧
    factoryListeningCamera0Removed.getEmulatedCameraNum = 0 ∧
    factoryListeningCamera0Again.getEmulatedCameraNum = 1 ∧
    factoryListeningCamera0Removed.mEmulatedCameras.map slotOccupied =
      [false, false, false, false, false, false] ∧
    factoryListeningCamera0Again.mEmulatedCameras.map slotOccupied =
      [true, false, false, false, false, false] :=
  ⟨reachable_factoryListeningCamera0, by decide, by decide, by decide, by decide, by decide,
    by decide, by decide, by decide⟩

/-- C4 (fails on the code): attaching camera 3 to the reachable factory without cameras
calls the callback with `(3, Present)`, yet `getCameraInfo(3)` returns `-ENODEV` both on
the factory as it is at the moment of the callback and on the factory after the call,
because 3 is not below the occupied count 1. -/
theorem C4_notified_camera_is_refused :
    Reachable 6 factoryListening ∧
    (factoryListening.onStatusChanged 3 CAMERA_DEVICE_STATUS_PRESENT envInitOK).map
        Prod.fst = some factoryListeningCamera3 ∧
    notifications (factoryListening.onStatusChanged 3 CAMERA_DEVICE_STATUS_PRESENT
        envInitOK) =
      some [Effect.camera_device_status_change 3 CAMERA_DEVICE_STATUS_PRESENT
        factoryListeningCamera3] ∧
    factoryListeningCamera3.mEmulatedCameras.getD 3 none = some (attachedCamera 0 3) ∧
    factoryListeningCamera3.getCameraInfo 3 = CallResult.ret (-ENODEV) :=
  ⟨reachable_factoryListening, by decide, by decide, by decide, by decide⟩

/-- C5: from a factory whose occupied count equals the number of slots holding a handle not
marked `CAMERA_READY_REMOVE`, every finite sequence of `onStatusChanged` calls with ids
inside the table runs to its end, whatever each `Initialize()` returns, and afterwards
`getEmulatedCameraNum()` again equals the number of slots holding a handle not marked
`CAMERA_READY_REMOVE`. -/
theorem C5_count_is_number_of_occupied_slots (f : EmulatedCameraFactory)
    (events : List HotplugEvent)
    (hcount : f.mEmulatedCameraNum = occupiedCount f.mEmulatedCameras)
    (hrange : ∀ e ∈ events, 0 ≤ e.cameraId ∧ e.cameraId < f.MAX_CAMERA_NUM) :
    ∃ f' es, runEvents f events = some (f', es) ∧
      f'.getEmulatedCameraNum = occupiedCount f'.mEmulatedCameras := by
  induction events generalizing f with
  | nil => exact ⟨f, [], rfl, hcount⟩
  | cons e rest ih =>
    have he := hrange e (List.mem_cons_self e rest)
    obtain ⟨f1, es1, h1, hnum1, hmax1, _⟩ :=
      onStatusChanged_step f e.cameraId.toNat (by omega) e.newStatus e.env hcount
    rw [Int.toNat_of_nonneg he.1] at h1
    obtain ⟨f2, es2, h2, hnum2⟩ := ih f1 hnum1 (by
      intro e' he'
      rw [hmax1]
      exact hrange e' (List.mem_cons_of_mem e he'))
    exact ⟨f2, es1 ++ es2, by simp [runEvents, h1, h2], hnum2⟩

/-- Witness of C5: camera 0 is removed, attached again with a failing `Initialize()`, and
attached once more, starting from the factory that holds cameras 0 and 1. -/
theorem C5_count_is_number_of_occupied_slots_witness :
    factoryCameras01.mEmulatedCameraNum = occupiedCount factoryCameras01.mEmulatedCameras ∧
    ∃ f' es,
      runEvents factoryCameras01
        [{ cameraId := 0, newStatus := CAMERA_DEVICE_STATUS_NOT_PRESENT, env := envInitOK },
         { cameraId := 0, newStatus := CAMERA_DEVICE_STATUS_PRESENT, env := envInitFails },
         { cameraId := 0, newStatus := CAMERA_DEVICE_STATUS_PRESENT, env := envInitOK }] =
        some (f', es) ∧
      f'.getEmulatedCameraNum = occupiedCount f'.mEmulatedCameras :=
  ⟨by decide, C5_count_is_number_of_occupied_slots factoryCameras01 _ (by decide)
    (by
      intro e he
      simp only [List.mem_cons, List.mem_singleton, List.not_mem_nil, or_false] at he
      rcases he with h | h | h <;> subst h <;> decide)⟩

/-- C6: every `onStatusChanged` call with an id inside the table returns, and
(1) if it leaves slot `id` marked `CAMERA_READY_REMOVE`, then the event was NotPresent, the
slot held that same handle, unmarked, when the call began, and the call deleted neither the
handle of slot `id` nor a local handle;
(2) every `delete mEmulatedCameras[j]` of the call is on a handle that slot `j` held
marked `CAMERA_READY_REMOVE` when the call began, so a handle marked by one call is deleted
by a later call at the earliest;
(3) the only other deletion is of the handle the call allocated itself when its
`Initialize()` failed, and that handle was never stored in the table. -/
theorem C6_marked_handle_outlives_the_call (f : EmulatedCameraFactory) (id : Nat)
    (hid : id < f.MAX_CAMERA_NUM) (newStatus : Int) (env : HotplugEnv) :
    ∃ f' es, f.onStatusChanged id newStatus env = some (f', es) ∧
      (∀ c', f'.mEmulatedCameras.getD id none = some c' →
        c'.getCameraStatus = CAMERA_READY_REMOVE →
        newStatus = CAMERA_DEVICE_STATUS_NOT_PRESENT ∧
        (∃ c, f.mEmulatedCameras.getD id none = some c ∧
          c.getCameraStatus ≠ CAMERA_READY_REMOVE ∧
          c' = c.setCameraStatus CAMERA_READY_REMOVE) ∧
        (∀ d, Effect.deleteSlot id d ∉ es) ∧ (∀ d, Effect.deleteCam d ∉ es)) ∧
      (∀ j d, Effect.deleteSlot j d ∈ es →
        ∃ c, f.mEmulatedCameras.getD j none = some c ∧
          c.getCameraStatus = CAMERA_READY_REMOVE ∧ d = c.setCameraStatus CAMERA_INIT) ∧
      (∀ d, Effect.deleteCam d ∈ es →
        d = newEmulatedFakeCamera3 f.nextUid id env.hotplug0 ∧ Effect.newCamera d ∈ es ∧
          env.initRes ≠ NO_ERROR ∧ f'.mEmulatedCameras = f.mEmulatedCameras.map releaseSlot) := by
  have hlen : id < (f.mEmulatedCameras.map releaseSlot).length := by
    simpa [MAX_CAMERA_NUM] using hid
  have hguard : ¬ ((id : Int) < 0 ∨ (f.MAX_CAMERA_NUM : Int) ≤ (id : Int)) := by
    omega
  have hrel := deleteSlot_mem_releaseLoop f.mEmulatedCameras
  have hrelc := deleteCam_not_mem_releaseLoop f.mEmulatedCameras
  have hw := deleteSlot_not_mem_waitLoop env.access id 4 0
  have hwc := deleteCam_not_mem_waitLoop env.access id 4 0
  have hself : ∀ x : Option EmulatedBaseCamera,
      ((f.mEmulatedCameras.map releaseSlot).set id x).getD id none = x := by
    intro x
    simp only [List.getD_eq_getElem?_getD, List.getElem?_set_self hlen, Option.getD_some]
  unfold EmulatedCameraFactory.onStatusChanged
  rw [if_neg hguard]
  simp only [releaseLoop_fst, Int.toNat_ofNat, setCameraStatus_new]
  cases hslot : (f.mEmulatedCameras.map releaseSlot).getD id none with
  | none =>
    simp only
    by_cases hres : env.initRes = NO_ERROR
    · simp only [hres, ne_eq, not_true_eq_false, if_false]
      split <;> refine ⟨_, _, rfl, ?_, ?_, ?_⟩
      · intro c' hc' hrr
        rw [hself] at hc'
        simp only [Option.some.injEq] at hc'
        subst hc'
        simp at hrr
      · intro j d hd
        simp [hw] at hd
        exact hrel j d hd
      · intro d hd
        simp [hwc, hrelc] at hd
      · intro c' hc' hrr
        rw [hself] at hc'
        simp only [Option.some.injEq] at hc'
        subst hc'
        simp at hrr
      · intro j d hd
        simp [hw] at hd
        exact hrel j d hd
      · intro d hd
        simp [hwc, hrelc] at hd
    · simp only [ne_eq, hres, not_false_eq_true, if_true]
      refine ⟨_, _, rfl, ?_, ?_, ?_⟩
      · intro c' hc' _
        rw [hslot] at hc'
        simp at hc'
      · intro j d hd
        simp [hw] at hd
        exact hrel j d hd
      · intro d hd
        simp [hwc, hrelc] at hd
        subst hd
        exact ⟨rfl, by simp, trivial, rfl⟩
  | some cam =>
    simp only
    have hslot' := hslot
    rw [getD_map_releaseSlot] at hslot'
    obtain ⟨hold, hcam⟩ := releaseSlot_eq_some hslot'
    have hnodel : ∀ d, Effect.deleteSlot id d ∉ (releaseLoop 0 f.mEmulatedCameras).2 := by
      intro d hd
      obtain ⟨c, h1, h2, _⟩ := hrel id d hd
      rw [hold] at h1
      simp only [Option.some.injEq] at h1
      subst h1
      exact hcam h2
    split
    · refine ⟨_, _, rfl, ?_, hrel, fun d hd => absurd hd (hrelc d)⟩
      intro c' hc' hrr
      rw [hslot] at hc'
      simp only [Option.some.injEq] at hc'
      subst hc'
      exact absurd hrr hcam
    · split
      · rename_i hnp
        refine ⟨_, _, rfl, ?_, hrel, fun d hd => absurd hd (hrelc d)⟩
        intro c' hc' _
        rw [hself] at hc'
        simp only [Option.some.injEq] at hc'
        exact ⟨hnp, ⟨cam, hold, hcam, hc'.symm⟩, hnodel, hrelc⟩
      · split
        · refine ⟨_, _, rfl, ?_, ?_, ?_⟩
          · intro c' hc' hrr
            rw [hself] at hc'
            simp only [Option.some.injEq] at hc'
            subst hc'
            exact absurd hrr hcam
          · intro j d hd
            simp only [List.mem_append, List.mem_singleton, reduceCtorEq, or_false] at hd
            exact hrel j d hd
          · intro d hd
            simp only [List.mem_append, List.mem_singleton, reduceCtorEq, or_false] at hd
            exact absurd hd (hrelc d)
        · refine ⟨_, _, rfl, ?_, hrel, fun d hd => absurd hd (hrelc d)⟩
          intro c' hc' hrr
          rw [hslot] at hc'
          simp only [Option.some.injEq] at hc'
          subst hc'
          exact absurd hrr hcam

/-- Witness of C6: NotPresent for camera 0 on the factory that holds camera 0; the call
marks the handle of slot 0 and keeps it. -/
theorem C6_marked_handle_outlives_the_call_witness :
    (0 < factoryListeningCamera0.MAX_CAMERA_NUM ∧
      (factoryListeningCamera0.onStatusChanged ((0 : Nat) : Int)
        CAMERA_DEVICE_STATUS_NOT_PRESENT envInitOK).map Prod.fst =
        some factoryListeningCamera0Removed) ∧
    ∃ f' es,
      factoryListeningCamera0.onStatusChanged ((0 : Nat) : Int)
        CAMERA_DEVICE_STATUS_NOT_PRESENT envInitOK = some (f', es) ∧
      (∀ c', f'.mEmulatedCameras.getD 0 none = some c' →
        c'.getCameraStatus = CAMERA_READY_REMOVE →
        CAMERA_DEVICE_STATUS_NOT_PRESENT = CAMERA_DEVICE_STATUS_NOT_PRESENT ∧
        (∃ c, factoryListeningCamera0.mEmulatedCameras.getD 0 none = some c ∧
          c.getCameraStatus ≠ CAMERA_READY_REMOVE ∧
          c' = c.setCameraStatus CAMERA_READY_REMOVE) ∧
        (∀ d, Effect.deleteSlot 0 d ∉ es) ∧ (∀ d, Effect.deleteCam d ∉ es)) ∧
      (∀ j d, Effect.deleteSlot j d ∈ es →
        ∃ c, factoryListeningCamera0.mEmulatedCameras.getD j none = some c ∧
          c.getCameraStatus = CAMERA_READY_REMOVE ∧ d = c.setCameraStatus CAMERA_INIT) ∧
      (∀ d, Effect.deleteCam d ∈ es →
        d = newEmulatedFakeCamera3 factoryListeningCamera0.nextUid ((0 : Nat) : Int)
            envInitOK.hotplug0 ∧
          Effect.newCamera d ∈ es ∧ envInitOK.initRes ≠ NO_ERROR ∧
          f'.mEmulatedCameras = factoryListeningCamera0.mEmulatedCameras.map releaseSlot) :=
  ⟨⟨by decide, by decide⟩,
    C6_marked_handle_outlives_the_call factoryListeningCamera0 0 (by decide)
      CAMERA_DEVICE_STATUS_NOT_PRESENT envInitOK⟩

/-- C7 (fails on the code): a NotPresent event for camera 0 on the reachable factory
without cameras, with `Initialize()` succeeding, attaches a camera and calls the
notification callback with status NotPresent. -/
theorem C7_NotPresent_is_forwarded :
    Reachable 6 factoryListening ∧
    (factoryListening.onStatusChanged 0 CAMERA_DEVICE_STATUS_NOT_PRESENT envInitOK).map
        Prod.fst = some factoryListeningCamera0 ∧
    notifications (factoryListening.onStatusChanged 0 CAMERA_DEVICE_STATUS_NOT_PRESENT
        envInitOK) =
      some [Effect.camera_device_status_change 0 CAMERA_DEVICE_STATUS_NOT_PRESENT
        factoryListeningCamera0] :=
  ⟨reachable_factoryListening, by decide, by decide⟩

/-- C8: Scenario A.  In a factory that constructed OK, with every slot empty, count 0 and a
callback set, when `Initialize()` of the new handle succeeds, `onStatusChanged(0, Present)`
allocates a handle, waits for the device node, initializes and plugs the handle and calls
the callback once, with `(0, Present)`, and with nothing else.  The factory at the moment
of the callback is the final one: `getEmulatedCameraNum()` is 1, slot 0 holds the plugged
handle, and `getCameraInfo(0)` dispatches to that handle. -/
theorem C8_attach_into_empty_registry (f : EmulatedCameraFactory) (env : HotplugEnv)
    (cb : camera_module_callbacks_t)
    (hcap : 0 < f.MAX_CAMERA_NUM) (hempty : ∀ s ∈ f.mEmulatedCameras, s = none)
    (hnum : f.mEmulatedCameraNum = 0) (hcb : f.mCallbacks = some cb)
    (hfn : cb.camera_device_status_change = true) (hok : f.mConstructedOK = true)
    (hinit : env.initRes = NO_ERROR) :
    ∃ f' cam,
      cam = newEmulatedFakeCamera3 f.nextUid 0 env.hotplug0 ∧
      f.onStatusChanged 0 CAMERA_DEVICE_STATUS_PRESENT env =
        some (f', [Effect.newCamera cam, Effect.usleep 200000] ++ waitLoop env.access 0 4 0 ++
          [Effect.initCamera cam NO_ERROR, Effect.plugCamera cam,
            Effect.camera_device_status_change 0 CAMERA_DEVICE_STATUS_PRESENT f']) ∧
      notifications (f.onStatusChanged 0 CAMERA_DEVICE_STATUS_PRESENT env) =
        some [Effect.camera_device_status_change 0 CAMERA_DEVICE_STATUS_PRESENT f'] ∧
      f'.getEmulatedCameraNum = 1 ∧
      f'.mEmulatedCameras.getD 0 none = some cam.plugCamera ∧
      cam.plugCamera.getCameraStatus = CAMERA_INIT ∧
      cam.plugCamera.getHotplugStatus = CAMERA_DEVICE_STATUS_PRESENT ∧
      f'.getCameraInfo 0 = CallResult.getCameraInfo cam.plugCamera := by
  have hlen : 0 < f.mEmulatedCameras.length := hcap
  have hguard : ¬ ((0 : Int) < 0 ∨ (f.MAX_CAMERA_NUM : Int) ≤ 0) := by omega
  have hslot0 : f.mEmulatedCameras.getD 0 none = none := by
    cases hl : f.mEmulatedCameras with
    | nil => rfl
    | cons s rest =>
      have := hempty s (by rw [hl]; exact List.mem_cons_self s rest)
      simp [this]
  have hrun : f.onStatusChanged 0 CAMERA_DEVICE_STATUS_PRESENT env =
      some ({ f with
          mEmulatedCameras := f.mEmulatedCameras.set 0
            (some (newEmulatedFakeCamera3 f.nextUid 0 env.hotplug0).plugCamera),
          mEmulatedCameraNum := f.mEmulatedCameraNum + 1, nextUid := f.nextUid + 1 },
        [Effect.newCamera (newEmulatedFakeCamera3 f.nextUid 0 env.hotplug0),
          Effect.usleep 200000] ++ waitLoop env.access 0 4 0 ++
          [Effect.initCamera (newEmulatedFakeCamera3 f.nextUid 0 env.hotplug0) NO_ERROR,
            Effect.plugCamera (newEmulatedFakeCamera3 f.nextUid 0 env.hotplug0),
            Effect.camera_device_status_change 0 CAMERA_DEVICE_STATUS_PRESENT
              { f with
                mEmulatedCameras := f.mEmulatedCameras.set 0
                  (some (newEmulatedFakeCamera3 f.nextUid 0 env.hotplug0).plugCamera),
                mEmulatedCameraNum := f.mEmulatedCameraNum + 1,
                nextUid := f.nextUid + 1 }]) := by
    unfold EmulatedCameraFactory.onStatusChanged
    rw [if_neg hguard]
    simp only [releaseLoop_none f.mEmulatedCameras 0 hempty, Int.toNat_zero, hslot0, hinit,
      hcb, hfn, ne_eq, not_true_eq_false, if_false, if_true, List.nil_append,
      setCameraStatus_new, List.append_assoc, List.cons_append, List.nil_append]
  refine ⟨_, _, rfl, hrun, ?_, ?_, ?_, rfl, rfl, ?_⟩
  · rw [hrun]
    simp [notifications, List.filter_append, waitLoop_filter_isStatusChange,
      Effect.isStatusChange, List.filter_cons]
  · simp [getEmulatedCameraNum, hnum]
  · simp [List.getElem?_set_self hlen]
  · simp [getCameraInfo, isConstructedOK, hok, getEmulatedCameraNum, hnum,
      List.getElem?_set_self hlen]

/-- Witness of C8 on the factory constructed without cameras, after `setCallbacks`. -/
theorem C8_attach_into_empty_registry_witness :
    (0 < factoryListening.MAX_CAMERA_NUM ∧
      (∀ s ∈ factoryListening.mEmulatedCameras, s = none) ∧
      factoryListening.mEmulatedCameraNum = 0 ∧
      factoryListening.mCallbacks = some callbacksSet ∧
      callbacksSet.camera_device_status_change = true ∧
      factoryListening.mConstructedOK = true ∧ envInitOK.initRes = NO_ERROR) ∧
    ∃ f' cam,
      cam = newEmulatedFakeCamera3 factoryListening.nextUid 0 envInitOK.hotplug0 ∧
      factoryListening.onStatusChanged 0 CAMERA_DEVICE_STATUS_PRESENT envInitOK =
        some (f', [Effect.newCamera cam, Effect.usleep 200000] ++
          waitLoop envInitOK.access 0 4 0 ++
          [Effect.initCamera cam NO_ERROR, Effect.plugCamera cam,
            Effect.camera_device_status_change 0 CAMERA_DEVICE_STATUS_PRESENT f']) ∧
      notifications (factoryListening.onStatusChanged 0 CAMERA_DEVICE_STATUS_PRESENT
          envInitOK) =
        some [Effect.camera_device_status_change 0 CAMERA_DEVICE_STATUS_PRESENT f'] ∧
      f'.getEmulatedCameraNum = 1 ∧
      f'.mEmulatedCameras.getD 0 none = some cam.plugCamera ∧
      cam.plugCamera.getCameraStatus = CAMERA_INIT ∧
      cam.plugCamera.getHotplugStatus = CAMERA_DEVICE_STATUS_PRESENT ∧
      f'.getCameraInfo 0 = CallResult.getCameraInfo cam.plugCamera :=
  ⟨⟨by decide, by decide, rfl, rfl, rfl, rfl, rfl⟩,
    C8_attach_into_empty_registry factoryListening envInitOK callbacksSet (by decide)
      (by decide) rfl rfl rfl rfl rfl⟩

/-- C9: Scenario B.  In a factory that constructed OK, where slot 0 is the only occupied
slot (every other slot is empty or holds a handle marked `CAMERA_READY_REMOVE`), its
handle is Ready with hotplug status Present, and the count is 1,
`onStatusChanged(0, NotPresent)` returns without calling the notification callback, leaves
`getEmulatedCameraNum()` at 0 with no slot occupied, leaves slot 0 holding its handle, now
marked `CAMERA_READY_REMOVE`, and `getCameraInfo(0)` then returns `-ENODEV`. -/
theorem C9_detach_only_camera (f : EmulatedCameraFactory) (cam : EmulatedBaseCamera)
    (rest : List (Option EmulatedBaseCamera)) (env : HotplugEnv)
    (hslots : f.mEmulatedCameras = some cam :: rest)
    (hrest : ∀ s ∈ rest, slotOccupied s = false)
    (hready : cam.getCameraStatus = CAMERA_INIT)
    (hplug : cam.getHotplugStatus = CAMERA_DEVICE_STATUS_PRESENT)
    (hnum : f.mEmulatedCameraNum = 1) (hok : f.mConstructedOK = true) :
    ∃ f' es,
      f.onStatusChanged 0 CAMERA_DEVICE_STATUS_NOT_PRESENT env = some (f', es) ∧
      es.filter Effect.isStatusChange = [] ∧
      f'.getEmulatedCameraNum = 0 ∧
      f'.getCameraInfo 0 = CallResult.ret (-ENODEV) ∧
      f'.mEmulatedCameras.getD 0 none = some (cam.setCameraStatus CAMERA_READY_REMOVE) ∧
      (cam.setCameraStatus CAMERA_READY_REMOVE).getCameraStatus = CAMERA_READY_REMOVE ∧
      (cam.setCameraStatus CAMERA_READY_REMOVE).uid = cam.uid ∧
      occupiedCount f'.mEmulatedCameras = 0 := by
  have hguard : ¬ ((0 : Int) < 0 ∨ (f.MAX_CAMERA_NUM : Int) ≤ 0) := by
    simp [MAX_CAMERA_NUM, hslots]
  have hnone : occupiedCount rest = 0 := by
    simp only [occupiedCount, List.countP_eq_zero]
    intro s hs
    simp [hrest s hs]
  have hne : ¬ CAMERA_DEVICE_STATUS_NOT_PRESENT = cam.getHotplugStatus := by
    rw [hplug]; decide
  have hrel : releaseLoop 0 (some cam :: rest) =
      (some cam :: (releaseLoop 1 rest).1, (releaseLoop 1 rest).2) := by
    simp [releaseLoop, hready]
  have hrun : f.onStatusChanged 0 CAMERA_DEVICE_STATUS_NOT_PRESENT env =
      some ({ f with
          mEmulatedCameras :=
            some (cam.setCameraStatus CAMERA_READY_REMOVE) :: (releaseLoop 1 rest).1,
          mEmulatedCameraNum := f.mEmulatedCameraNum - 1 }, (releaseLoop 1 rest).2) := by
    unfold EmulatedCameraFactory.onStatusChanged
    rw [if_neg hguard]
    simp only [hslots, hrel, Int.toNat_zero, List.getD_cons_zero, hne, if_false, if_true,
      List.set_cons_zero]
  refine ⟨_, _, hrun, releaseLoop_filter_isStatusChange rest 1, ?_, ?_, rfl, rfl, rfl, ?_⟩
  · simp [getEmulatedCameraNum, hnum]
  · simp [getCameraInfo, isConstructedOK, hok, getEmulatedCameraNum, hnum]
  · have h := occupiedCount_release rest
    rw [hnone] at h
    simpa [occupiedCount, releaseLoop_fst] using h

/-- Witness of C9 on the factory that holds camera 0 only. -/
theorem C9_detach_only_camera_witness :
    (factoryListeningCamera0.mEmulatedCameras =
        some (attachedCamera 0 0) :: [none, none, none, none, none] ∧
      (∀ s ∈ [none, none, none, none, (none : Option EmulatedBaseCamera)],
        slotOccupied s = false) ∧
      (attachedCamera 0 0).getCameraStatus = CAMERA_INIT ∧
      (attachedCamera 0 0).getHotplugStatus = CAMERA_DEVICE_STATUS_PRESENT ∧
      factoryListeningCamera0.mEmulatedCameraNum = 1 ∧
      factoryListeningCamera0.mConstructedOK = true) ∧
    ∃ f' es,
      factoryListeningCamera0.onStatusChanged 0 CAMERA_DEVICE_STATUS_NOT_PRESENT envInitOK =
        some (f', es) ∧
      es.filter Effect.isStatusChange = [] ∧
      f'.getEmulatedCameraNum = 0 ∧
      f'.getCameraInfo 0 = CallResult.ret (-ENODEV) ∧
      f'.mEmulatedCameras.getD 0 none =
        some ((attachedCamera 0 0).setCameraStatus CAMERA_READY_REMOVE) ∧
      ((attachedCamera 0 0).setCameraStatus CAMERA_READY_REMOVE).getCameraStatus =
        CAMERA_READY_REMOVE ∧
      ((attachedCamera 0 0).setCameraStatus CAMERA_READY_REMOVE).uid =
        (attachedCamera 0 0).uid ∧
      occupiedCount f'.mEmulatedCameras = 0 :=
  ⟨⟨rfl, by decide, rfl, rfl, rfl, rfl⟩,
    C9_detach_only_camera factoryListeningCamera0 (attachedCamera 0 0)
      [none, none, none, none, none] envInitOK rfl (by decide) rfl rfl rfl rfl⟩

/-- C10 (as stated, fails): re-attaching camera 0 while slot 0 holds a handle marked
`CAMERA_READY_REMOVE` does not reuse that handle.  The call deletes the retained handle
(allocation stamp 0) in its reclamation loop and stores a newly allocated one (stamp 1);
when `Initialize()` of the new handle fails, slot 0 ends up empty with the count still 0. -/
theorem C10_retained_handle_is_not_reused :
    factoryListeningCamera0Removed.mEmulatedCameras.getD 0 none =
      some ((attachedCamera 0 0).setCameraStatus CAMERA_READY_REMOVE) ∧
    factoryListeningCamera0Removed.mEmulatedCameraNum = 0 ∧
    (factoryListeningCamera0Removed.onStatusChanged 0 CAMERA_DEVICE_STATUS_PRESENT
        envInitOK).map Prod.fst = some factoryListeningCamera0Again ∧
    factoryListeningCamera0Again.mEmulatedCameras.getD 0 none = some (attachedCamera 1 0) ∧
    (attachedCamera 1 0).uid ≠ (attachedCamera 0 0).uid ∧
    (factoryListeningCamera0Removed.onStatusChanged 0 CAMERA_DEVICE_STATUS_PRESENT
        envInitOK).map (fun r => r.2.take 2) =
      some [Effect.deleteSlot 0 (attachedCamera 0 0),
        Effect.newCamera (newEmulatedFakeCamera3 1 0 CAMERA_DEVICE_STATUS_NOT_PRESENT)] ∧
    (factoryListeningCamera0Removed.onStatusChanged 0 CAMERA_DEVICE_STATUS_PRESENT
        envInitFails).map (fun r => (r.1.mEmulatedCameras.getD 0 none, r.1.mEmulatedCameraNum)) =
      some (none, 0) := by
  refine ⟨?_, ?_, ?_, ?_, ?_, ?_, ?_⟩ <;> decide

/-- C10 (amended): Scenario C.  In a factory where slot 0 holds a handle marked
`CAMERA_READY_REMOVE` and the count is 0, `onStatusChanged(0, Present)` first deletes the
retained handle in its reclamation loop (then the other marked handles), and only then
allocates a new handle, waits for the device node and calls `Initialize()` on the new
handle.  When that `Initialize()` succeeds, the plug hook is invoked next, on the new
handle, and the call leaves slot 0 Ready (status `CAMERA_INIT`, hotplug status Present)
with `getEmulatedCameraNum()` = 1, holding the new handle, not the retained one.  When it
fails, the new handle is deleted and slot 0 stays empty with the count at 0. -/
theorem C10_reattach_allocates_new_handle (f : EmulatedCameraFactory)
    (old : EmulatedBaseCamera) (rest : List (Option EmulatedBaseCamera)) (env : HotplugEnv)
    (hslots : f.mEmulatedCameras = some old :: rest)
    (hold : old.getCameraStatus = CAMERA_READY_REMOVE)
    (hnum : f.mEmulatedCameraNum = 0) (huid : old.uid < f.nextUid) :
    ∃ f' fresh tail,
      fresh = newEmulatedFakeCamera3 f.nextUid 0 env.hotplug0 ∧
      f.onStatusChanged 0 CAMERA_DEVICE_STATUS_PRESENT env =
        some (f', Effect.deleteSlot 0 (old.setCameraStatus CAMERA_INIT) ::
          (releaseLoop 1 rest).2 ++ [Effect.newCamera fresh, Effect.usleep 200000] ++
          waitLoop env.access 0 4 0 ++ [Effect.initCamera fresh env.initRes] ++ tail) ∧
      (∀ e ∈ (releaseLoop 1 rest).2, ∃ i c, e = Effect.deleteSlot i c) ∧
      fresh.uid ≠ old.uid ∧
      (env.initRes = NO_ERROR →
        (tail = [Effect.plugCamera fresh] ∨
          tail = [Effect.plugCamera fresh,
            Effect.camera_device_status_change 0 CAMERA_DEVICE_STATUS_PRESENT f']) ∧
        f'.getEmulatedCameraNum = 1 ∧
        f'.mEmulatedCameras.getD 0 none = some fresh.plugCamera ∧
        fresh.plugCamera.getCameraStatus = CAMERA_INIT ∧
        fresh.plugCamera.getHotplugStatus = CAMERA_DEVICE_STATUS_PRESENT ∧
        fresh.plugCamera.uid ≠ old.uid) ∧
      (env.initRes ≠ NO_ERROR →
        tail = [Effect.deleteCam fresh] ∧
        f'.getEmulatedCameraNum = 0 ∧
        f'.mEmulatedCameras.getD 0 none = none) := by
  have hguard : ¬ ((0 : Int) < 0 ∨ (f.MAX_CAMERA_NUM : Int) ≤ 0) := by
    simp [MAX_CAMERA_NUM, hslots]
  have hrel : releaseLoop 0 (some old :: rest) =
      (none :: (releaseLoop 1 rest).1,
        Effect.deleteSlot 0 (old.setCameraStatus CAMERA_INIT) :: (releaseLoop 1 rest).2) := by
    simp [releaseLoop, hold]
  have hne : (newEmulatedFakeCamera3 f.nextUid 0 env.hotplug0).uid ≠ old.uid := by
    have : (newEmulatedFakeCamera3 f.nextUid 0 env.hotplug0).uid = f.nextUid := rfl
    omega
  have hdel : ∀ e ∈ (releaseLoop 1 rest).2, ∃ i c, e = Effect.deleteSlot i c := by
    intro e he
    obtain ⟨j, c, h, _, _⟩ := releaseLoop_snd_mem rest 1 e he
    exact ⟨_, _, h⟩
  unfold EmulatedCameraFactory.onStatusChanged
  rw [if_neg hguard]
  simp only [hslots, hrel, Int.toNat_zero, List.getD_cons_zero, List.set_cons_zero,
    setCameraStatus_new]
  by_cases hres : env.initRes = NO_ERROR
  · rw [if_neg (fun h => h hres)]
    split
    · exact ⟨_, _, _, rfl, rfl, hdel, hne,
        fun _ => ⟨Or.inr rfl, by simp [getEmulatedCameraNum, hnum], rfl, rfl, rfl, hne⟩,
        fun h => absurd hres h⟩
    · exact ⟨_, _, _, rfl, rfl, hdel, hne,
        fun _ => ⟨Or.inl rfl, by simp [getEmulatedCameraNum, hnum], rfl, rfl, rfl, hne⟩,
        fun h => absurd hres h⟩
  · rw [if_pos hres]
    exact ⟨_, _, _, rfl, rfl, hdel, hne, fun h => absurd h hres,
      fun _ => ⟨rfl, by simp [getEmulatedCameraNum, hnum], rfl⟩⟩

/-- Witness of C10 (amended) on the factory whose slot 0 holds the removed camera 0, with
`Initialize()` succeeding: the whole effect list of the call, in order. -/
theorem C10_reattach_allocates_new_handle_witness :
    (factoryListeningCamera0Removed.mEmulatedCameras =
        some ((attachedCamera 0 0).setCameraStatus CAMERA_READY_REMOVE) ::
          [none, none, none, none, none] ∧
      ((attachedCamera 0 0).setCameraStatus CAMERA_READY_REMOVE).getCameraStatus =
        CAMERA_READY_REMOVE ∧
      factoryListeningCamera0Removed.mEmulatedCameraNum = 0 ∧
      ((attachedCamera 0 0).setCameraStatus CAMERA_READY_REMOVE).uid <
        factoryListeningCamera0Removed.nextUid ∧
      envInitOK.initRes = NO_ERROR ∧
      factoryListeningCamera0Removed.onStatusChanged 0 CAMERA_DEVICE_STATUS_PRESENT
          envInitOK =
        some (factoryListeningCamera0Again,
          [Effect.deleteSlot 0 (attachedCamera 0 0),
            Effect.newCamera (newEmulatedFakeCamera3 1 0 CAMERA_DEVICE_STATUS_NOT_PRESENT),
            Effect.usleep 200000, Effect.access 0 true,
            Effect.initCamera (newEmulatedFakeCamera3 1 0 CAMERA_DEVICE_STATUS_NOT_PRESENT)
              NO_ERROR,
            Effect.plugCamera (newEmulatedFakeCamera3 1 0 CAMERA_DEVICE_STATUS_NOT_PRESENT),
            Effect.camera_device_status_change 0 CAMERA_DEVICE_STATUS_PRESENT
              factoryListeningCamera0Again])) ∧
    ∃ f' fresh tail,
      fresh = newEmulatedFakeCamera3 factoryListeningCamera0Removed.nextUid 0
        envInitOK.hotplug0 ∧
      factoryListeningCamera0Removed.onStatusChanged 0 CAMERA_DEVICE_STATUS_PRESENT
          envInitOK =
        some (f', Effect.deleteSlot 0
            (((attachedCamera 0 0).setCameraStatus CAMERA_READY_REMOVE).setCameraStatus
              CAMERA_INIT) ::
          (releaseLoop 1 [none, none, none, none, none]).2 ++
          [Effect.newCamera fresh, Effect.usleep 200000] ++
          waitLoop envInitOK.access 0 4 0 ++ [Effect.initCamera fresh envInitOK.initRes] ++
          tail) ∧
      (∀ e ∈ (releaseLoop 1 [none, none, none, none, none]).2,
        ∃ i c, e = Effect.deleteSlot i c) ∧
      fresh.uid ≠ ((attachedCamera 0 0).setCameraStatus CAMERA_READY_REMOVE).uid ∧
      (envInitOK.initRes = NO_ERROR →
        (tail = [Effect.plugCamera fresh] ∨
          tail = [Effect.plugCamera fresh,
            Effect.camera_device_status_change 0 CAMERA_DEVICE_STATUS_PRESENT f']) ∧
        f'.getEmulatedCameraNum = 1 ∧
        f'.mEmulatedCameras.getD 0 none = some fresh.plugCamera ∧
        fresh.plugCamera.getCameraStatus = CAMERA_INIT ∧
        fresh.plugCamera.getHotplugStatus = CAMERA_DEVICE_STATUS_PRESENT ∧
        fresh.plugCamera.uid ≠
          ((attachedCamera 0 0).setCameraStatus CAMERA_READY_REMOVE).uid) ∧
      (envInitOK.initRes ≠ NO_ERROR →
        tail = [Effect.deleteCam fresh] ∧
        f'.getEmulatedCameraNum = 0 ∧
        f'.mEmulatedCameras.getD 0 none = none) :=
  ⟨⟨rfl, rfl, rfl, by decide, rfl, by decide⟩,
    C10_reattach_allocates_new_handle factoryListeningCamera0Removed
      ((attachedCamera 0 0).setCameraStatus CAMERA_READY_REMOVE)
      [none, none, none, none, none] envInitOK rfl rfl rfl (by decide)⟩

/-- C11: Scenario D.  For every id inside the table whose slot is empty, when `Initialize()`
of the newly constructed handle returns an error, `onStatusChanged(id, Present)` returns,
leaves slot `id` empty, leaves `getEmulatedCameraNum()` unchanged and does not call the
notification callback; the new handle is deleted. -/
theorem C11_failed_attach_leaves_slot_empty (f : EmulatedCameraFactory) (id : Nat)
    (env : HotplugEnv) (hid : id < f.MAX_CAMERA_NUM)
    (hempty : f.mEmulatedCameras.getD id none = none) (hinit : env.initRes ≠ NO_ERROR) :
    ∃ f' es,
      f.onStatusChanged id CAMERA_DEVICE_STATUS_PRESENT env = some (f', es) ∧
      f'.mEmulatedCameras.getD id none = none ∧
      f'.getEmulatedCameraNum = f.getEmulatedCameraNum ∧
      es.filter Effect.isStatusChange = [] ∧
      Effect.deleteCam (newEmulatedFakeCamera3 f.nextUid id env.hotplug0) ∈ es := by
  have hguard : ¬ ((id : Int) < 0 ∨ (f.MAX_CAMERA_NUM : Int) ≤ (id : Int)) := by
    omega
  have hslot : (f.mEmulatedCameras.map releaseSlot).getD id none = none := by
    rw [getD_map_releaseSlot, hempty]
    rfl
  unfold EmulatedCameraFactory.onStatusChanged
  rw [if_neg hguard]
  simp only [releaseLoop_fst, Int.toNat_ofNat, setCameraStatus_new, hslot, hinit, ne_eq,
    not_false_eq_true, if_true]
  refine ⟨_, _, rfl, hslot, rfl, ?_, by simp⟩
  simp [List.filter_append, releaseLoop_filter_isStatusChange,
    waitLoop_filter_isStatusChange, Effect.isStatusChange]

/-- Witness of C11: id 2 on the factory that holds camera 0 only, `Initialize()` failing. -/
theorem C11_failed_attach_leaves_slot_empty_witness :
    (2 < factoryListeningCamera0.MAX_CAMERA_NUM ∧
      factoryListeningCamera0.mEmulatedCameras.getD 2 none = none ∧
      envInitFails.initRes ≠ NO_ERROR) ∧
    ∃ f' es,
      factoryListeningCamera0.onStatusChanged ((2 : Nat) : Int) CAMERA_DEVICE_STATUS_PRESENT
        envInitFails = some (f', es) ∧
      f'.mEmulatedCameras.getD 2 none = none ∧
      f'.getEmulatedCameraNum = factoryListeningCamera0.getEmulatedCameraNum ∧
      es.filter Effect.isStatusChange = [] ∧
      Effect.deleteCam (newEmulatedFakeCamera3 factoryListeningCamera0.nextUid
        ((2 : Nat) : Int) envInitFails.hotplug0) ∈ es :=
  ⟨⟨by decide, by decide, by decide⟩,
    C11_failed_attach_leaves_slot_empty factoryListeningCamera0 2 envInitFails (by decide)
      (by decide) (by decide)⟩

/-- C12: on every factory whose `mConstructedOK` is `false`, for every id, inside the table
or not, occupied slot or not, `cameraDeviceOpen` and `getCameraInfo` return `-EINVAL`
themselves, which is not `-ENODEV`; no handle is reached. -/
theorem C12_not_constructed_is_EINVAL (f : EmulatedCameraFactory) (camera_id : Int)
    (hok : f.mConstructedOK = false) :
    f.cameraDeviceOpen camera_id = CallResult.ret (-EINVAL) ∧
      f.getCameraInfo camera_id = CallResult.ret (-EINVAL) ∧ -EINVAL ≠ -ENODEV := by
  refine ⟨?_, ?_, by decide⟩
  · simp [cameraDeviceOpen, isConstructedOK, hok]
  · simp [getCameraInfo, isConstructedOK, hok]

/-- Witness of C12: id 0, whose slot is occupied, on a factory not constructed OK. -/
theorem C12_not_constructed_is_EINVAL_witness :
    factoryNotConstructed.mConstructedOK = false ∧
    factoryNotConstructed.mEmulatedCameras.getD 0 none = some (attachedCamera 0 0) ∧
    (factoryNotConstructed.cameraDeviceOpen 0 = CallResult.ret (-EINVAL) ∧
      factoryNotConstructed.getCameraInfo 0 = CallResult.ret (-EINVAL) ∧ -EINVAL ≠ -ENODEV) :=
  ⟨rfl, by decide, C12_not_constructed_is_EINVAL factoryNotConstructed 0 rfl⟩

/-- C13 (as stated, fails): a name that is not a decimal number is not rejected.  `atoi`
reads `"abc"` and the empty name as 0, and on the factory that holds camera 0
`device_open` with such a name dispatches to `connectCamera` of the handle in slot 0.
Nor is every negative number rejected: `atoi` reads `"-4294967295"`, which does not fit
an `int`, as 1, and on the factory that holds cameras 0 and 1 `device_open` dispatches to
the handle in slot 1. -/
theorem C13_non_numeric_name_opens_camera_0 :
    atoi "abc" = 0 ∧ atoi "" = 0 ∧
    factoryListeningCamera0.device_open true (some "abc") =
      CallResult.connectCamera (attachedCamera 0 0) ∧
    factoryListeningCamera0.device_open true (some "") =
      CallResult.connectCamera (attachedCamera 0 0) ∧
    atoi "-4294967295" = 1 ∧
    factoryCameras01.device_open true (some "-4294967295") =
      CallResult.connectCamera (attachedCamera 1 1) := by
  refine ⟨?_, ?_, ?_, ?_, ?_, ?_⟩ <;> decide

/-- C13 (amended): `device_open` rejects a wrong module and a NULL name with `-EINVAL`
itself; for the valid module and any other name it returns exactly what
`cameraDeviceOpen` returns for `atoi(name)`.  For a name `n` that is a negative number (a
minus sign followed by decimal digits, not all of them 0) whose value fits an `int`,
`atoi` is that negative value and the call is rejected with `-EINVAL` or `-ENODEV`,
without dispatching to a handle.  A name `m` that is empty, or whose first character is
neither white space, a sign nor a decimal digit, is read by `atoi` as 0 and is handled as
`cameraDeviceOpen(0)`. -/
theorem C13_device_open_dispatches_on_atoi (f : EmulatedCameraFactory) (n m : String)
    (ds : List Char) (hname : n.data = '-' :: ds)
    (hdigits : ∀ c ∈ ds, 48 ≤ c.toNat ∧ c.toNat ≤ 57) (hnz : ∃ c ∈ ds, c.toNat ≠ 48)
    (hfit : atoiDigits 0 ds ≤ 2147483648)
    (hm : m.data = [] ∨ ∃ c cs, m.data = c :: cs ∧
      ¬ (c.toNat = 32 ∨ (9 ≤ c.toNat ∧ c.toNat ≤ 13)) ∧ c ≠ '-' ∧ c ≠ '+' ∧
      ¬ (48 ≤ c.toNat ∧ c.toNat ≤ 57)) :
    (atoi n = - atoiDigits 0 ds ∧ atoi n < 0) ∧
    (f.device_open true (some n) = CallResult.ret (-EINVAL) ∨
      f.device_open true (some n) = CallResult.ret (-ENODEV)) ∧
    (atoi m = 0 ∧ f.device_open true (some m) = f.cameraDeviceOpen 0) ∧
    (∀ k, f.device_open true (some k) = f.cameraDeviceOpen (atoi k)) ∧
    (∀ name, f.device_open false name = CallResult.ret (-EINVAL)) ∧
    f.device_open true none = CallResult.ret (-EINVAL) := by
  have hpos := atoiDigits_pos ds 0 (le_refl 0) hdigits (Or.inr hnz)
  have hval : atoi n = - atoiDigits 0 ds := by
    simp only [atoi, strtolValue, longToInt, hname, atoiValue_minus]
    rw [if_neg (by omega), if_neg (by omega)]
    omega
  have hneg : atoi n < 0 := by omega
  have hzero : atoi m = 0 := by
    have hv : atoiValue m.data = 0 := by
      rcases hm with h | ⟨c, cs, h, hsp, hminus, hplus, hdig⟩
      · rw [h]
        rfl
      · rw [h]
        exact atoiValue_no_digit c cs hsp hminus hplus hdig
    simp only [atoi, strtolValue, longToInt, hv]
    decide
  refine ⟨⟨hval, hneg⟩, ?_, ⟨hzero, ?_⟩, fun k => rfl, fun name => rfl, rfl⟩
  · cases hok : f.mConstructedOK with
    | false =>
      left
      simp [device_open, cameraDeviceOpen, isConstructedOK, hok]
    | true =>
      right
      simp [device_open, cameraDeviceOpen, isConstructedOK, hok, hneg]
  · simp only [device_open, hzero]
    rfl

/-- Witness of C13 (amended): the names `"-1"` and `"abc"` on the factory that holds
camera 0. -/
theorem C13_device_open_dispatches_on_atoi_witness :
    ("-1".data = '-' :: ['1'] ∧ (∀ c ∈ ['1'], 48 ≤ c.toNat ∧ c.toNat ≤ 57) ∧
      (∃ c ∈ ['1'], c.toNat ≠ 48) ∧ atoiDigits 0 ['1'] ≤ 2147483648 ∧
      ("abc".data = [] ∨ ∃ c cs, "abc".data = c :: cs ∧
        ¬ (c.toNat = 32 ∨ (9 ≤ c.toNat ∧ c.toNat ≤ 13)) ∧ c ≠ '-' ∧ c ≠ '+' ∧
        ¬ (48 ≤ c.toNat ∧ c.toNat ≤ 57))) ∧
    ((atoi "-1" = - atoiDigits 0 ['1'] ∧ atoi "-1" < 0) ∧
    (factoryListeningCamera0.device_open true (some "-1") = CallResult.ret (-EINVAL) ∨
      factoryListeningCamera0.device_open true (some "-1") = CallResult.ret (-ENODEV)) ∧
    (atoi "abc" = 0 ∧ factoryListeningCamera0.device_open true (some "abc") =
      factoryListeningCamera0.cameraDeviceOpen 0) ∧
    (∀ k, factoryListeningCamera0.device_open true (some k) =
      factoryListeningCamera0.cameraDeviceOpen (atoi k)) ∧
    (∀ name, factoryListeningCamera0.device_open false name = CallResult.ret (-EINVAL)) ∧
    factoryListeningCamera0.device_open true none = CallResult.ret (-EINVAL)) :=
  ⟨⟨rfl, by decide, by decide, by decide,
      Or.inr ⟨'a', ['b', 'c'], rfl, by decide, by decide, by decide, by decide⟩⟩,
    C13_device_open_dispatches_on_atoi factoryListeningCamera0 "-1" "abc" ['1'] rfl
      (by decide) (by decide) (by decide)
      (Or.inr ⟨'a', ['b', 'c'], rfl, by decide, by decide, by decide, by decide⟩)⟩

/-- C14 (fails on the code): on the reachable factory whose only camera is in slot 1 (count
1), the destructor visits slot 0 only, which is NULL, and deletes nothing: the handle in
slot 1 is left undestroyed.  On the reachable factory with camera 0 removed and camera 1
attached it deletes the handle of slot 0 and again leaves that of slot 1. -/
theorem C14_destructor_stops_at_the_count :
    (Reachable 6 factoryOnlyCamera1 ∧
      factoryOnlyCamera1.mEmulatedCameras.getD 1 none = some (attachedCamera 0 1) ∧
      factoryOnlyCamera1.getEmulatedCameraNum = 1 ∧
      factoryOnlyCamera1.dtor = some [Effect.requestExit, Effect.join]) ∧
    (Reachable 6 factoryCamera0Removed ∧
      factoryCamera0Removed.mEmulatedCameras.getD 1 none = some (attachedCamera 1 1) ∧
      factoryCamera0Removed.getEmulatedCameraNum = 1 ∧
      factoryCamera0Removed.dtor =
        some [Effect.deleteSlot 0 ((attachedCamera 0 0).setCameraStatus CAMERA_READY_REMOVE),
          Effect.requestExit, Effect.join]) :=
  ⟨⟨reachable_factoryOnlyCamera1, by decide, by decide, by decide⟩,
   ⟨reachable_factoryCamera0Removed, by decide, by decide, by decide⟩⟩

/-- C15 (fails on the code): when the scan finds `/dev/video0` and `Initialize()` of its
handle fails, the constructor deletes the handle but slot 0 keeps the pointer and the
count stays 1: the slot is not empty, the deleted handle is counted, and
`getCameraInfo(0)` dispatches to it. -/
theorem C15_failed_scan_slot_stays_counted :
    (EmulatedCameraFactory.ctor 6 scanCamera0InitFails).map Prod.fst =
      some factoryCamera0InitFailed ∧
    (EmulatedCameraFactory.ctor 6 scanCamera0InitFails).map Prod.snd =
      some [Effect.newCamera (newEmulatedFakeCamera3 0 0 CAMERA_DEVICE_STATUS_NOT_PRESENT),
        Effect.initCamera (newEmulatedFakeCamera3 0 0 CAMERA_DEVICE_STATUS_NOT_PRESENT)
          (-ENODEV),
        Effect.deleteSlot 0 (newEmulatedFakeCamera3 0 0 CAMERA_DEVICE_STATUS_NOT_PRESENT),
        Effect.hotplugThreadRun 1] ∧
    factoryCamera0InitFailed.mEmulatedCameras.getD 0 none =
      some (newEmulatedFakeCamera3 0 0 CAMERA_DEVICE_STATUS_NOT_PRESENT) ∧
    factoryCamera0InitFailed.getEmulatedCameraNum = 1 ∧
    factoryCamera0InitFailed.getCameraInfo 0 =
      CallResult.getCameraInfo (newEmulatedFakeCamera3 0 0 CAMERA_DEVICE_STATUS_NOT_PRESENT) := by
  refine ⟨?_, ?_, ?_, ?_, ?_⟩ <;> decide

/-- C17 (as stated, fails): on the factory that holds camera 0 the destructor deletes the
handle of slot 0 first and only then asks the hotplug thread to exit and joins it. -/
theorem C17_delete_precedes_join :
    factoryListeningCamera0.dtor =
      some [Effect.deleteSlot 0 (attachedCamera 0 0), Effect.requestExit, Effect.join] := by
  decide

/-- C17 (amended): on a factory whose count does not exceed the table, the destructor
returns, and its effects are, in this order: the deletes of the handles its loop finds,
in slot order; then, when there is a hotplug thread, `requestExit`; then `join`.  Every
delete precedes the request to stop and the join, and nothing follows the join. -/
theorem C17_destructor_deletes_then_joins (f : EmulatedCameraFactory)
    (hnum : f.mEmulatedCameraNum ≤ f.MAX_CAMERA_NUM) :
    f.dtor = some (
      (List.range' 0 f.mEmulatedCameraNum.toNat).filterMap
          (fun i => (f.mEmulatedCameras.getD i none).map (fun cam => Effect.deleteSlot i cam)) ++
        if f.mHotplugThread then [Effect.requestExit, Effect.join] else []) := by
  have hloop := dtorLoop_eq f.mEmulatedCameras f.mEmulatedCameraNum.toNat 0
    (by simp only [MAX_CAMERA_NUM] at hnum; omega)
  simp only [EmulatedCameraFactory.dtor, hloop]
  split <;> simp

/-- Witness of C17 (amended) on the factory that holds cameras 0 and 1: both handles are
deleted, in slot order, before `requestExit` and `join`. -/
theorem C17_destructor_deletes_then_joins_witness :
    (factoryCameras01.mEmulatedCameraNum ≤ factoryCameras01.MAX_CAMERA_NUM ∧
      factoryCameras01.dtor =
        some [Effect.deleteSlot 0 (attachedCamera 0 0), Effect.deleteSlot 1 (attachedCamera 1 1),
          Effect.requestExit, Effect.join]) ∧
    factoryCameras01.dtor = some (
      (List.range' 0 factoryCameras01.mEmulatedCameraNum.toNat).filterMap
          (fun i => (factoryCameras01.mEmulatedCameras.getD i none).map
            (fun cam => Effect.deleteSlot i cam)) ++
        if factoryCameras01.mHotplugThread then [Effect.requestExit, Effect.join] else []) :=
  ⟨⟨by decide, by decide⟩, C17_destructor_deletes_then_joins factoryCameras01 (by decide)⟩

/-- C18: whatever the `access` probes of the device node answer, a call of
`onStatusChanged` that finds slot `id` empty or marked `CAMERA_READY_REMOVE` (the attach
path) returns, and its effects are: a waiting part with at most 4 failed probes and at
most 5 sleeps, each of 200000 microseconds, and no `Initialize()`; then one call of
`Initialize()`; then a rest without sleep, probe or `Initialize()`. -/
theorem C18_attach_wait_is_bounded (f : EmulatedCameraFactory) (id : Nat)
    (newStatus : Int) (env : HotplugEnv) (hid : id < f.MAX_CAMERA_NUM)
    (hslot : slotOccupied (f.mEmulatedCameras.getD id none) = false) :
    ∃ f' es pre cam post,
      f.onStatusChanged id newStatus env = some (f', es) ∧
      es = pre ++ Effect.initCamera cam env.initRes :: post ∧
      (pre.filter Effect.isFailedProbe).length ≤ 4 ∧
      (pre.filter Effect.isSleep).length ≤ 5 ∧
      (∀ us, Effect.usleep us ∈ pre → us = 200000) ∧
      pre.filter Effect.isInit = [] ∧
      post.filter Effect.isSleep = [] ∧ post.filter Effect.isFailedProbe = [] ∧
      post.filter Effect.isInit = [] := by
  have hguard : ¬ ((id : Int) < 0 ∨ (f.MAX_CAMERA_NUM : Int) ≤ (id : Int)) := by
    omega
  have hnone : (f.mEmulatedCameras.map releaseSlot).getD id none = none := by
    rw [getD_map_releaseSlot]
    cases hs : f.mEmulatedCameras.getD id none with
    | none => rfl
    | some c =>
      rw [hs] at hslot
      simp only [slotOccupied_some, ne_eq, decide_eq_false_iff_not, not_not] at hslot
      simp [releaseSlot, hslot]
  have hprobe := waitLoop_failedProbes env.access id 4 0
  have hsleep := waitLoop_sleeps env.access id 4 0
  have hr1 := releaseLoop_filter Effect.isFailedProbe (fun _ _ => rfl) f.mEmulatedCameras 0
  have hr2 := releaseLoop_filter Effect.isSleep (fun _ _ => rfl) f.mEmulatedCameras 0
  have hr3 := releaseLoop_filter Effect.isInit (fun _ _ => rfl) f.mEmulatedCameras 0
  have hw3 : (waitLoop env.access id 4 0).filter Effect.isInit = [] := by
    rw [List.filter_eq_nil_iff]
    intro e he
    rcases waitLoop_mem env.access id 4 0 e he with h | ⟨ok, h⟩ <;> subst h <;>
      simp [Effect.isInit]
  have hpre :
      (((releaseLoop 0 f.mEmulatedCameras).2 ++
          [Effect.newCamera (newEmulatedFakeCamera3 f.nextUid id env.hotplug0),
            Effect.usleep 200000] ++ waitLoop env.access id 4 0).filter
          Effect.isFailedProbe).length ≤ 4 ∧
      (((releaseLoop 0 f.mEmulatedCameras).2 ++
          [Effect.newCamera (newEmulatedFakeCamera3 f.nextUid id env.hotplug0),
            Effect.usleep 200000] ++ waitLoop env.access id 4 0).filter
          Effect.isSleep).length ≤ 5 ∧
      (∀ us, Effect.usleep us ∈ (releaseLoop 0 f.mEmulatedCameras).2 ++
          [Effect.newCamera (newEmulatedFakeCamera3 f.nextUid id env.hotplug0),
            Effect.usleep 200000] ++ waitLoop env.access id 4 0 → us = 200000) ∧
      ((releaseLoop 0 f.mEmulatedCameras).2 ++
          [Effect.newCamera (newEmulatedFakeCamera3 f.nextUid id env.hotplug0),
            Effect.usleep 200000] ++ waitLoop env.access id 4 0).filter Effect.isInit = [] := by
    refine ⟨?_, ?_, ?_, ?_⟩
    · simp only [List.filter_append, hr1, List.nil_append, List.length_append]
      simp only [List.filter_cons, Effect.isFailedProbe, Bool.false_eq_true, if_false,
        List.filter_nil, List.length_nil]
      omega
    · simp only [List.filter_append, hr2, List.nil_append, List.length_append]
      simp only [List.filter_cons, Effect.isSleep, Bool.false_eq_true, if_false, if_true,
        List.filter_nil, List.length_cons, List.length_nil]
      omega
    · intro us hus
      simp only [List.mem_append, List.mem_cons, List.mem_singleton, List.not_mem_nil,
        or_false] at hus
      rcases hus with (hus | hus) | hus
      · obtain ⟨j, c, h, _, _⟩ := releaseLoop_snd_mem _ 0 _ hus
        simp at h
      · rcases hus with h | h
        · simp at h
        · simpa using h
      · rcases waitLoop_mem env.access id 4 0 _ hus with h | ⟨ok, h⟩
        · simpa using h
        · simp at h
    · simp only [List.filter_append, hr3, hw3, List.nil_append, List.append_nil]
      simp [Effect.isInit]
  unfold EmulatedCameraFactory.onStatusChanged
  rw [if_neg hguard]
  simp only [releaseLoop_fst, Int.toNat_ofNat, setCameraStatus_new, hnone]
  by_cases hres : env.initRes = NO_ERROR
  · simp only [hres, ne_eq, not_true_eq_false, if_false]
    split <;>
      exact ⟨_, _, _, _, _, rfl, List.append_assoc _ _ _, hpre.1, hpre.2.1, hpre.2.2.1,
        hpre.2.2.2, by simp [Effect.isSleep], by simp [Effect.isFailedProbe],
        by simp [Effect.isInit]⟩
  · simp only [ne_eq, hres, not_false_eq_true, if_true]
    exact ⟨_, _, _, _, _, rfl, List.append_assoc _ _ _, hpre.1, hpre.2.1, hpre.2.2.1,
      hpre.2.2.2, by simp [Effect.isSleep], by simp [Effect.isFailedProbe],
      by simp [Effect.isInit]⟩

/-- Witness of C18: an attach of camera 0 during which the device node never appears;
the call makes exactly 4 failed probes and 5 sleeps before its one `Initialize()`. -/
theorem C18_attach_wait_is_bounded_witness :
    (0 < factoryListening.MAX_CAMERA_NUM ∧
      slotOccupied (factoryListening.mEmulatedCameras.getD 0 none) = false ∧
      (factoryListening.onStatusChanged ((0 : Nat) : Int) CAMERA_DEVICE_STATUS_PRESENT
        envInitFails).map (fun r => ((r.2.filter Effect.isFailedProbe).length,
          (r.2.filter Effect.isSleep).length, (r.2.filter Effect.isInit).length)) =
        some (4, 5, 1)) ∧
    ∃ f' es pre cam post,
      factoryListening.onStatusChanged ((0 : Nat) : Int) CAMERA_DEVICE_STATUS_PRESENT
        envInitFails = some (f', es) ∧
      es = pre ++ Effect.initCamera cam envInitFails.initRes :: post ∧
      (pre.filter Effect.isFailedProbe).length ≤ 4 ∧
      (pre.filter Effect.isSleep).length ≤ 5 ∧
      (∀ us, Effect.usleep us ∈ pre → us = 200000) ∧
      pre.filter Effect.isInit = [] ∧
      post.filter Effect.isSleep = [] ∧ post.filter Effect.isFailedProbe = [] ∧
      post.filter Effect.isInit = [] :=
  ⟨⟨by decide, by decide, by decide⟩,
    C18_attach_wait_is_bounded factoryListening 0 CAMERA_DEVICE_STATUS_PRESENT envInitFails
      (by decide) (by decide)⟩

/-- C19: every `onStatusChanged` call with an id inside the table returns, and afterwards
(1) a slot that holds a handle marked `CAMERA_READY_REMOVE` can only be slot `id`, so at
most one slot is marked;
(2) every handle that was marked when the call began, at whatever index, was deleted by
the reclamation loop and is no longer in its slot: the slot is empty, unless it is slot
`id` and the call stored the handle it newly allocated there. -/
theorem C19_only_slot_id_is_marked (f : EmulatedCameraFactory) (id : Nat)
    (hid : id < f.MAX_CAMERA_NUM) (newStatus : Int) (env : HotplugEnv) :
    ∃ f' es, f.onStatusChanged id newStatus env = some (f', es) ∧
      (∀ j c, f'.mEmulatedCameras.getD j none = some c →
        c.getCameraStatus = CAMERA_READY_REMOVE → j = id) ∧
      (∀ j c, f.mEmulatedCameras.getD j none = some c →
        c.getCameraStatus = CAMERA_READY_REMOVE →
        Effect.deleteSlot j (c.setCameraStatus CAMERA_INIT) ∈ es ∧
        (f'.mEmulatedCameras.getD j none = none ∨
          (j = id ∧ f'.mEmulatedCameras.getD j none =
            some (newEmulatedFakeCamera3 f.nextUid id env.hotplug0).plugCamera))) := by
  have hlen : id < (f.mEmulatedCameras.map releaseSlot).length := by
    simpa [MAX_CAMERA_NUM] using hid
  have hself : ∀ x : Option EmulatedBaseCamera,
      ((f.mEmulatedCameras.map releaseSlot).set id x).getD id none = x := by
    intro x
    simp only [List.getD_eq_getElem?_getD, List.getElem?_set_self hlen, Option.getD_some]
  have hother : ∀ (x : Option EmulatedBaseCamera) (j : Nat), j ≠ id →
      ((f.mEmulatedCameras.map releaseSlot).set id x).getD j none =
        releaseSlot (f.mEmulatedCameras.getD j none) := by
    intro x j hj
    rw [getD_set_ne _ _ _ _ hj, getD_map_releaseSlot]
  have hclean : ∀ j c, releaseSlot (f.mEmulatedCameras.getD j none) = some c →
      c.getCameraStatus = CAMERA_READY_REMOVE → False :=
    fun j c h hc => (releaseSlot_eq_some h).2 hc
  obtain ⟨f', es, hrun, hrel, _, hcases⟩ := onStatusChanged_cases f id hid newStatus env
  have hdel : ∀ j c, f.mEmulatedCameras.getD j none = some c →
      c.getCameraStatus = CAMERA_READY_REMOVE →
      Effect.deleteSlot j (c.setCameraStatus CAMERA_INIT) ∈ es := by
    intro j c hj hc
    have := releaseLoop_deletes_marked f.mEmulatedCameras 0 j c hj hc
    rw [Nat.zero_add] at this
    exact hrel _ this
  refine ⟨f', es, hrun, ?_, ?_⟩
  · intro j c hj hc
    by_contra hne
    rcases hcases with ⟨ht, _⟩ | ⟨_, ht, _⟩ | ⟨cam, _, _, ht, _⟩ | ⟨cam, _, _, ht, _⟩
    · rw [ht, getD_map_releaseSlot] at hj
      exact hclean j c hj hc
    · rw [ht, hother _ j hne] at hj
      exact hclean j c hj hc
    · rw [ht, hother _ j hne] at hj
      exact hclean j c hj hc
    · rw [ht, hother _ j hne] at hj
      exact hclean j c hj hc
  · intro j c hj hc
    refine ⟨hdel j c hj hc, ?_⟩
    have hnone : releaseSlot (f.mEmulatedCameras.getD j none) = none :=
      releaseSlot_marked hj hc
    rcases hcases with ⟨ht, _⟩ | ⟨_, ht, _⟩ | ⟨cam, hcam, hst, ht, _⟩ | ⟨cam, hcam, hst, ht, _⟩
    · left
      rw [ht, getD_map_releaseSlot, hnone]
    · by_cases hji : j = id
      · right
        subst hji
        exact ⟨rfl, by rw [ht, hself]⟩
      · left
        rw [ht, hother _ j hji, hnone]
    · have hji : j ≠ id := by
        intro h
        subst h
        rw [hcam] at hj
        simp only [Option.some.injEq] at hj
        subst hj
        exact hst hc
      left
      rw [ht, hother _ j hji, hnone]
    · have hji : j ≠ id := by
        intro h
        subst h
        rw [hcam] at hj
        simp only [Option.some.injEq] at hj
        subst hj
        exact hst hc
      left
      rw [ht, hother _ j hji, hnone]

/-- Witness of C19: NotPresent for camera 1 on the factory whose slot 0 is marked and whose
slot 1 is live; the call reclaims slot 0 and marks slot 1. -/
theorem C19_only_slot_id_is_marked_witness :
    (1 < factoryCamera0Removed.MAX_CAMERA_NUM ∧
      (factoryCamera0Removed.onStatusChanged ((1 : Nat) : Int)
        CAMERA_DEVICE_STATUS_NOT_PRESENT envInitOK).map (fun r => r.1.mEmulatedCameras) =
        some [none, some ((attachedCamera 1 1).setCameraStatus CAMERA_READY_REMOVE),
          none, none, none, none]) ∧
    ∃ f' es,
      factoryCamera0Removed.onStatusChanged ((1 : Nat) : Int)
        CAMERA_DEVICE_STATUS_NOT_PRESENT envInitOK = some (f', es) ∧
      (∀ j c, f'.mEmulatedCameras.getD j none = some c →
        c.getCameraStatus = CAMERA_READY_REMOVE → j = 1) ∧
      (∀ j c, factoryCamera0Removed.mEmulatedCameras.getD j none = some c →
        c.getCameraStatus = CAMERA_READY_REMOVE →
        Effect.deleteSlot j (c.setCameraStatus CAMERA_INIT) ∈ es ∧
        (f'.mEmulatedCameras.getD j none = none ∨
          (j = 1 ∧ f'.mEmulatedCameras.getD j none =
            some (newEmulatedFakeCamera3 factoryCamera0Removed.nextUid ((1 : Nat) : Int)
              envInitOK.hotplug0).plugCamera))) :=
  ⟨⟨by decide, by decide⟩,
    C19_only_slot_id_is_marked factoryCamera0Removed 1 (by decide)
      CAMERA_DEVICE_STATUS_NOT_PRESENT envInitOK⟩

/-- C20: for every `onStatusChanged` call with an id inside the table, on a factory whose
count is not at a limit of `int`, the call returns, every slot other than `id` that is
empty or holds a handle not marked `CAMERA_READY_REMOVE` holds afterwards what it held
before, the callback pointer is unchanged, and the count is unchanged, one more or one
less, still an `int`. -/
theorem C20_other_slots_are_untouched (f : EmulatedCameraFactory) (id : Nat)
    (hid : id < f.MAX_CAMERA_NUM) (newStatus : Int) (env : HotplugEnv)
    (hint : -2147483648 < f.mEmulatedCameraNum ∧ f.mEmulatedCameraNum < 2147483647) :
    ∃ f' es, f.onStatusChanged id newStatus env = some (f', es) ∧
      (∀ j, j ≠ id →
        (∀ c, f.mEmulatedCameras.getD j none = some c →
          c.getCameraStatus ≠ CAMERA_READY_REMOVE) →
        f'.mEmulatedCameras.getD j none = f.mEmulatedCameras.getD j none) ∧
      f'.mCallbacks = f.mCallbacks ∧
      (f'.getEmulatedCameraNum = f.getEmulatedCameraNum ∨
        f'.getEmulatedCameraNum = f.getEmulatedCameraNum + 1 ∨
        f'.getEmulatedCameraNum = f.getEmulatedCameraNum - 1) ∧
      (-2147483648 ≤ f'.getEmulatedCameraNum ∧ f'.getEmulatedCameraNum ≤ 2147483647) := by
  have hother : ∀ (x : Option EmulatedBaseCamera) (j : Nat), j ≠ id →
      ((f.mEmulatedCameras.map releaseSlot).set id x).getD j none =
        releaseSlot (f.mEmulatedCameras.getD j none) := by
    intro x j hj
    rw [getD_set_ne _ _ _ _ hj, getD_map_releaseSlot]
  obtain ⟨f', es, hrun, _, hcb, hcases⟩ := onStatusChanged_cases f id hid newStatus env
  refine ⟨f', es, hrun, ?_, hcb, ?_, ?_⟩
  · intro j hj hs
    have hkeep := releaseSlot_unmarked (f.mEmulatedCameras.getD j none) hs
    rcases hcases with ⟨ht, _⟩ | ⟨_, ht, _⟩ | ⟨cam, _, _, ht, _⟩ | ⟨cam, _, _, ht, _⟩
    · rw [ht, getD_map_releaseSlot, hkeep]
    · rw [ht, hother _ j hj, hkeep]
    · rw [ht, hother _ j hj, hkeep]
    · rw [ht, hother _ j hj, hkeep]
  · simp only [getEmulatedCameraNum]
    rcases hcases with ⟨_, hn⟩ | ⟨_, _, hn⟩ | ⟨cam, _, _, _, hn⟩ | ⟨cam, _, _, _, hn⟩ <;>
      omega
  · simp only [getEmulatedCameraNum]
    rcases hcases with ⟨_, hn⟩ | ⟨_, _, hn⟩ | ⟨cam, _, _, _, hn⟩ | ⟨cam, _, _, _, hn⟩ <;>
      omega

/-- Witness of C20: NotPresent for camera 0 on the factory that holds cameras 0 and 1. -/
theorem C20_other_slots_are_untouched_witness :
    (0 < factoryCameras01.MAX_CAMERA_NUM ∧
      (-2147483648 < factoryCameras01.mEmulatedCameraNum ∧
        factoryCameras01.mEmulatedCameraNum < 2147483647)) ∧
    ∃ f' es,
      factoryCameras01.onStatusChanged ((0 : Nat) : Int) CAMERA_DEVICE_STATUS_NOT_PRESENT
        envInitOK = some (f', es) ∧
      (∀ j, j ≠ 0 →
        (∀ c, factoryCameras01.mEmulatedCameras.getD j none = some c →
          c.getCameraStatus ≠ CAMERA_READY_REMOVE) →
        f'.mEmulatedCameras.getD j none = factoryCameras01.mEmulatedCameras.getD j none) ∧
      f'.mCallbacks = factoryCameras01.mCallbacks ∧
      (f'.getEmulatedCameraNum = factoryCameras01.getEmulatedCameraNum ∨
        f'.getEmulatedCameraNum = factoryCameras01.getEmulatedCameraNum + 1 ∨
        f'.getEmulatedCameraNum = factoryCameras01.getEmulatedCameraNum - 1) ∧
      (-2147483648 ≤ f'.getEmulatedCameraNum ∧ f'.getEmulatedCameraNum ≤ 2147483647) :=
  ⟨⟨by decide, by decide⟩,
    C20_other_slots_are_untouched factoryCameras01 0 (by decide)
      CAMERA_DEVICE_STATUS_NOT_PRESENT envInitOK (by decide)⟩

/-- C21: whatever subset of the six candidate nodes `/dev/video0` .. `/dev/video5` is
accessible, with `n` the number of accessible ones (at most 6, and fitting the table), the
constructor returns a factory whose occupied count is `n`, whose slots `0 .. n-1` hold the
newly constructed handles with camera ids `0 .. n-1`, and whose slots from `n` on are
empty: which ordinals were accessible plays no part. -/
theorem C21_scan_fills_the_first_slots (cap : Nat) (env : ScanEnv)
    (hcap : (SENSOR_PATH.filter env.access).length ≤ cap) :
    ∃ f es, EmulatedCameraFactory.ctor cap env = some (f, es) ∧
      f.getEmulatedCameraNum = (SENSOR_PATH.filter env.access).length ∧
      (SENSOR_PATH.filter env.access).length ≤ 6 ∧
      f.MAX_CAMERA_NUM = cap ∧
      (∀ i, i < (SENSOR_PATH.filter env.access).length →
        f.mEmulatedCameras.getD i none =
            some (newEmulatedFakeCamera3 i (i : Int) (env.hotplug0 i)) ∧
          (newEmulatedFakeCamera3 i (i : Int) (env.hotplug0 i)).mCameraID = i) ∧
      (∀ i, (SENSOR_PATH.filter env.access).length ≤ i →
        f.mEmulatedCameras.getD i none = none) := by
  have hnum := getCameraNum_eq env.access
  have hle : (SENSOR_PATH.filter env.access).length ≤ 6 := by
    have := (getCameraNum_bounds env.access).2
    rw [hnum] at this
    omega
  have hguard : ¬ ((cap : Int) < getCameraNum env.access) := by
    rw [hnum]
    omega
  have htoNat : (getCameraNum env.access).toNat = (SENSOR_PATH.filter env.access).length := by
    rw [hnum]
    simp
  have hlen : 0 + (SENSOR_PATH.filter env.access).length ≤
      (List.replicate cap (none : Option EmulatedBaseCamera)).length := by
    simp
    omega
  have hslots := fun j => ctorLoop_getD env (SENSOR_PATH.filter env.access).length 0
    (List.replicate cap none) j hlen
  have hinv := ctorLoop_inv env (SENSOR_PATH.filter env.access).length 0
    (List.replicate cap none) hlen
    (by intro j _; simp [List.getElem?_replicate]; split <;> rfl)
  have hrep : ∀ j, (List.replicate cap (none : Option EmulatedBaseCamera)).getD j none = none := by
    intro j
    simp [List.getElem?_replicate]
    split <;> rfl
  unfold EmulatedCameraFactory.ctor
  simp only
  rw [if_neg hguard, htoNat]
  refine ⟨_, _, rfl, hnum, hle, ?_, ?_, ?_⟩
  · simpa [MAX_CAMERA_NUM] using hinv.1
  · intro i hi
    refine ⟨?_, rfl⟩
    show (ctorLoop env _ 0 (List.replicate cap none)).1.getD i none = _
    rw [hslots i, if_pos (by omega)]
  · intro i hi
    show (ctorLoop env _ 0 (List.replicate cap none)).1.getD i none = _
    rw [hslots i, if_neg (by omega), hrep i]

/-- Witness of C21: only `/dev/video2` is accessible; the constructor over six slots
yields one camera, in slot 0 with camera id 0. -/
theorem C21_scan_fills_the_first_slots_witness :
    ((SENSOR_PATH.filter scanOnlyVideo2.access).length ≤ 6 ∧
      SENSOR_PATH.filter scanOnlyVideo2.access = ["/dev/video2"] ∧
      (EmulatedCameraFactory.ctor 6 scanOnlyVideo2).map
          (fun r => (r.1.mEmulatedCameras, r.1.mEmulatedCameraNum)) =
        some ([some (newEmulatedFakeCamera3 0 0 CAMERA_DEVICE_STATUS_NOT_PRESENT),
          none, none, none, none, none], 1)) ∧
    ∃ f es, EmulatedCameraFactory.ctor 6 scanOnlyVideo2 = some (f, es) ∧
      f.getEmulatedCameraNum = (SENSOR_PATH.filter scanOnlyVideo2.access).length ∧
      (SENSOR_PATH.filter scanOnlyVideo2.access).length ≤ 6 ∧
      f.MAX_CAMERA_NUM = 6 ∧
      (∀ i, i < (SENSOR_PATH.filter scanOnlyVideo2.access).length →
        f.mEmulatedCameras.getD i none =
            some (newEmulatedFakeCamera3 i (i : Int) (scanOnlyVideo2.hotplug0 i)) ∧
          (newEmulatedFakeCamera3 i (i : Int) (scanOnlyVideo2.hotplug0 i)).mCameraID = i) ∧
      (∀ i, (SENSOR_PATH.filter scanOnlyVideo2.access).length ≤ i →
        f.mEmulatedCameras.getD i none = none) :=
  ⟨⟨by decide, by decide, by decide⟩,
    C21_scan_fills_the_first_slots 6 scanOnlyVideo2 (by decide)⟩

end android
